import Mathlib

/-!
# MaxScale target abstraction: status predicates, `Error` and `Reply`

A shallow embedding of `include/maxscale/target.hh`.

* `uint64_t` status words are natural numbers; the C `&` and `|` are `&&&` and `|||`.
  The status macros are `int` constants with non-negative values, so the usual arithmetic
  conversions to `uint64_t` keep their value.
* `std::string` is `String`, one `Char` per C++ `char`.
* `std::vector<uint64_t>` is `List Nat`; `push_back` appends at the end.
* `std::unordered_map<std::string, std::string>` is an association list with unique keys;
  only lookups by key are observable through the class interface.
* Fixed-width members are natural numbers; arithmetic on them is reduced modulo `2 ^ w`
  where the C++ code can wrap or narrow.
-/

namespace MaxScale

/-! ## Status bits (target.hh, lines 43-57) -/

/-- The server is up and running. -/
def SERVER_RUNNING : Nat := 1 <<< 0
/-- Server is in maintenance mode. -/
def SERVER_MAINT : Nat := 1 <<< 1
/-- Authentication error from monitor. -/
def SERVER_AUTH_ERROR : Nat := 1 <<< 2
/-- The server is a master, i.e. can handle writes. -/
def SERVER_MASTER : Nat := 1 <<< 3
/-- The server is a slave, i.e. can handle reads. -/
def SERVER_SLAVE : Nat := 1 <<< 4
/-- The server is being drained, i.e. no new connection should be created. -/
def SERVER_DRAINING : Nat := 1 <<< 5
/-- The disk space of the server is exhausted. -/
def SERVER_DISK_SPACE_EXHAUSTED : Nat := 1 <<< 6
/-- Server is slave of a non-monitored master. -/
def SERVER_SLAVE_OF_EXT_MASTER : Nat := 1 <<< 10
/-- Server is a relay. -/
def SERVER_RELAY : Nat := 1 <<< 11
/-- The server is joined in a Galera cluster. -/
def SERVER_JOINED : Nat := 1 <<< 20
/-- Server Master stickiness. -/
def SERVER_MASTER_STICKINESS : Nat := 1 <<< 21

/-! ## Status predicates (target.hh, lines 59-118) -/

/-- Embeds `status_is_connectable`. -/
def status_is_connectable (status : Nat) : Bool :=
  (status &&& (SERVER_RUNNING ||| SERVER_MAINT ||| SERVER_DRAINING)) == SERVER_RUNNING

/-- Embeds `status_is_usable`. -/
def status_is_usable (status : Nat) : Bool :=
  (status &&& (SERVER_RUNNING ||| SERVER_MAINT)) == SERVER_RUNNING

/-- Embeds `status_is_running`: the conversion of `status & SERVER_RUNNING` to `bool`. -/
def status_is_running (status : Nat) : Bool :=
  (status &&& SERVER_RUNNING) != 0

/-- Embeds `status_is_down`. -/
def status_is_down (status : Nat) : Bool :=
  (status &&& SERVER_RUNNING) == 0

/-- Embeds `status_is_in_maint`: the conversion of `status & SERVER_MAINT` to `bool`. -/
def status_is_in_maint (status : Nat) : Bool :=
  (status &&& SERVER_MAINT) != 0

/-- Embeds `status_is_draining`: the conversion of `status & SERVER_DRAINING` to `bool`. -/
def status_is_draining (status : Nat) : Bool :=
  (status &&& SERVER_DRAINING) != 0

/-- Embeds `status_is_master`. -/
def status_is_master (status : Nat) : Bool :=
  (status &&& (SERVER_RUNNING ||| SERVER_MASTER ||| SERVER_MAINT))
    == (SERVER_RUNNING ||| SERVER_MASTER)

/-- Embeds `status_is_slave`. -/
def status_is_slave (status : Nat) : Bool :=
  (status &&& (SERVER_RUNNING ||| SERVER_SLAVE ||| SERVER_MAINT))
    == (SERVER_RUNNING ||| SERVER_SLAVE)

/-- Embeds `status_is_relay`. -/
def status_is_relay (status : Nat) : Bool :=
  (status &&& (SERVER_RUNNING ||| SERVER_RELAY ||| SERVER_MAINT))
    == (SERVER_RUNNING ||| SERVER_RELAY)

/-- Embeds `status_is_joined`. -/
def status_is_joined (status : Nat) : Bool :=
  (status &&& (SERVER_RUNNING ||| SERVER_JOINED ||| SERVER_MAINT))
    == (SERVER_RUNNING ||| SERVER_JOINED)

/-- Embeds `status_is_slave_of_ext_master`. -/
def status_is_slave_of_ext_master (status : Nat) : Bool :=
  (status &&& (SERVER_RUNNING ||| SERVER_SLAVE_OF_EXT_MASTER))
    == (SERVER_RUNNING ||| SERVER_SLAVE_OF_EXT_MASTER)

/-- Embeds `status_is_disk_space_exhausted`. -/
def status_is_disk_space_exhausted (status : Nat) : Bool :=
  (status &&& SERVER_DISK_SPACE_EXHAUSTED) != 0

/-! ## `class Error` (target.hh, lines 462-502) -/

/-- The members of `class Error`: `uint16_t m_code {0}`, `std::string m_sql_state`,
`std::string m_message`. -/
structure Error where
  m_code : Nat := 0
  m_sql_state : String := ""
  m_message : String := ""
  deriving DecidableEq

/-- Modelled from the spec: `Error::operator bool` is declared in the header and defined in
`target.cc`, which is not part of the sources at hand. The specification (4.5) says that it
"is false exactly when `code == 0` and strings are empty, i.e. the default-constructed
state". -/
def Error.toBool (e : Error) : Bool :=
  !(e.m_code == 0 && e.m_sql_state == "" && e.m_message == "")

/-- Embeds `Error::set`. The two iterator ranges are given as the strings they span.
`mxb_assert` comes from a header that is not part of the sources at hand; following the
specification (4.5, "fatal assertion in the reference") a failed assertion ends the call
without a result. The assignment `m_code = code` narrows `uint32_t` to `uint16_t`. -/
def Error.set (_e : Error) (code : Nat) (sql_state message : String) : Option Error :=
  if sql_state.length = 5 then
    some { m_code := code % 2 ^ 16, m_sql_state := sql_state, m_message := message }
  else
    none

/-! ## `enum class ReplyState` and `class Reply` (target.hh, lines 504-728) -/

/-- The states of a reply, in declaration order. -/
inductive ReplyState where
  /-- Query sent to backend. -/
  | START
  /-- Complete reply received. -/
  | DONE
  /-- Resultset response, waiting for column definitions. -/
  | RSET_COLDEF
  /-- Resultset response, waiting for EOF for column definitions. -/
  | RSET_COLDEF_EOF
  /-- Resultset response, waiting for rows. -/
  | RSET_ROWS
  /-- COM_STMT_PREPARE response. -/
  | PREPARE
  deriving DecidableEq

/-- The private members of `class Reply` with their default member initialisers
(lines 716-727). -/
structure Reply where
  m_command : Nat := 0
  m_reply_state : ReplyState := ReplyState.DONE
  m_error : Error := {}
  m_row_count : Nat := 0
  m_size : Nat := 0
  m_generated_id : Nat := 0
  m_param_count : Nat := 0
  m_num_warnings : Nat := 0
  m_is_ok : Bool := false
  m_field_counts : List Nat := []
  m_variables : List (String × String) := []
  deriving DecidableEq

namespace Reply

/-- Embeds `Reply::state`. -/
def state (r : Reply) : ReplyState := r.m_reply_state

/-- Embeds `Reply::command`. -/
def command (r : Reply) : Nat := r.m_command

/-- Embeds `Reply::error`. -/
def error (r : Reply) : Error := r.m_error

/-- Embeds `Reply::is_complete`. -/
def is_complete (r : Reply) : Bool := r.m_reply_state == ReplyState.DONE

/-- Embeds `Reply::has_started`. -/
def has_started (r : Reply) : Bool :=
  r.m_reply_state != ReplyState.START && r.m_reply_state != ReplyState.DONE

/-- Embeds `Reply::is_resultset`. -/
def is_resultset (r : Reply) : Bool := !r.m_field_counts.isEmpty

/-- Embeds `Reply::is_ok`. -/
def is_ok (r : Reply) : Bool := r.m_is_ok && !r.is_resultset && !r.error.toBool

/-- Embeds `Reply::rows_read`. -/
def rows_read (r : Reply) : Nat := r.m_row_count

/-- Embeds `Reply::num_warnings`. -/
def num_warnings (r : Reply) : Nat := r.m_num_warnings

/-- Embeds `Reply::size`. -/
def size (r : Reply) : Nat := r.m_size

/-- Embeds `Reply::field_counts`. -/
def field_counts (r : Reply) : List Nat := r.m_field_counts

/-- Embeds `Reply::generated_id`. -/
def generated_id (r : Reply) : Nat := r.m_generated_id

/-- Embeds `Reply::param_count`. -/
def param_count (r : Reply) : Nat := r.m_param_count

/-- Embeds `Reply::get_variable`: the value found for `name`, else the empty string. -/
def get_variable (r : Reply) (name : String) : String :=
  match r.m_variables.find? (fun kv => kv.1 == name) with
  | some kv => kv.2
  | none => ""

/-- Embeds `Reply::set_command`. -/
def set_command (r : Reply) (command : Nat) : Reply := { r with m_command := command }

/-- Embeds `Reply::set_reply_state`. -/
def set_reply_state (r : Reply) (state : ReplyState) : Reply :=
  { r with m_reply_state := state }

/-- Embeds `Reply::add_rows`: `m_row_count += row_count` on `uint64_t`. -/
def add_rows (r : Reply) (row_count : Nat) : Reply :=
  { r with m_row_count := (r.m_row_count + row_count) % 2 ^ 64 }

/-- Embeds `Reply::add_bytes`: the body is the plain assignment `m_size = size`. -/
def add_bytes (r : Reply) (size : Nat) : Reply := { r with m_size := size }

/-- Embeds `Reply::add_field_count`: `m_field_counts.push_back(field_count)`. -/
def add_field_count (r : Reply) (field_count : Nat) : Reply :=
  { r with m_field_counts := r.m_field_counts ++ [field_count] }

/-- Embeds `Reply::set_generated_id`. -/
def set_generated_id (r : Reply) (id : Nat) : Reply := { r with m_generated_id := id }

/-- Embeds `Reply::set_param_count`. -/
def set_param_count (r : Reply) (count : Nat) : Reply := { r with m_param_count := count }

/-- Embeds `Reply::set_is_ok`. -/
def set_is_ok (r : Reply) (is_ok : Bool) : Reply := { r with m_is_ok := is_ok }

/-- Embeds `Reply::set_variable`: `std::unordered_map::insert` adds the pair only when the
key is not present yet. -/
def set_variable (r : Reply) (key value : String) : Reply :=
  match r.m_variables.find? (fun kv => kv.1 == key) with
  | some _ => r
  | none => { r with m_variables := r.m_variables ++ [(key, value)] }

/-- Embeds `Reply::set_num_warnings`. -/
def set_num_warnings (r : Reply) (warnings : Nat) : Reply :=
  { r with m_num_warnings := warnings }

/-- Modelled from the spec: `Reply::clear` is declared in the header and defined in
`target.cc`, which is not part of the sources at hand. The specification (4.4) says that it
"resets all fields to defaults (state resets to `DONE`)". -/
def clear (_r : Reply) : Reply :=
  { m_command := 0, m_reply_state := ReplyState.DONE, m_error := {}, m_row_count := 0,
    m_size := 0, m_generated_id := 0, m_param_count := 0, m_num_warnings := 0,
    m_is_ok := false, m_field_counts := [], m_variables := [] }

/-- Embeds `Reply::set_error`, which forwards its arguments to `Error::set` on `m_error`. -/
def set_error (r : Reply) (code : Nat) (sql_state message : String) : Option Reply :=
  (r.m_error.set code sql_state message).map (fun e => { r with m_error := e })

end Reply

/-- One call of a `Reply` mutator, with its arguments. -/
inductive ReplyCall where
  | set_command (command : Nat)
  | set_reply_state (state : ReplyState)
  | add_rows (row_count : Nat)
  | add_bytes (size : Nat)
  | add_field_count (field_count : Nat)
  | set_generated_id (id : Nat)
  | set_param_count (count : Nat)
  | set_is_ok (is_ok : Bool)
  | set_variable (key value : String)
  | set_num_warnings (warnings : Nat)
  | clear
  | set_error (code : Nat) (sql_state message : String)
  deriving DecidableEq

/-- The effect of one mutator call on a reply; `none` when the call ends in a failed
assertion. -/
def Reply.call (r : Reply) : ReplyCall → Option Reply
  | ReplyCall.set_command c => some (r.set_command c)
  | ReplyCall.set_reply_state s => some (r.set_reply_state s)
  | ReplyCall.add_rows n => some (r.add_rows n)
  | ReplyCall.add_bytes n => some (r.add_bytes n)
  | ReplyCall.add_field_count n => some (r.add_field_count n)
  | ReplyCall.set_generated_id i => some (r.set_generated_id i)
  | ReplyCall.set_param_count c => some (r.set_param_count c)
  | ReplyCall.set_is_ok b => some (r.set_is_ok b)
  | ReplyCall.set_variable k v => some (r.set_variable k v)
  | ReplyCall.set_num_warnings w => some (r.set_num_warnings w)
  | ReplyCall.clear => some r.clear
  | ReplyCall.set_error c s m => r.set_error c s m

/-- A sequence of mutator calls, made one after the other on the same reply. -/
def Reply.calls (r : Reply) : List ReplyCall → Option Reply
  | [] => some r
  | c :: cs => (r.call c).bind (fun r1 => r1.calls cs)

/-- The number of rows a call reports through `add_rows`; `0` for every other call. -/
def ReplyCall.rows : ReplyCall → Nat
  | ReplyCall.add_rows n => n
  | _ => 0

/-- The call is `add_rows` or `set_reply_state`. -/
def ReplyCall.isRowsOrState : ReplyCall → Bool
  | ReplyCall.add_rows _ => true
  | ReplyCall.set_reply_state _ => true
  | _ => false

/-- The field counts a call appends: the argument of `add_field_count`, nothing otherwise. -/
def ReplyCall.fieldCount : ReplyCall → Option Nat
  | ReplyCall.add_field_count n => some n
  | _ => none

/-! ## Further members of `class Error` -/

/-- Modelled from the spec: `Error::code` is declared in the header (`uint32_t code() const`,
"The error code") and defined in `target.cc`, which is not part of the sources at hand. It
reads the numeric code attribute, the member `m_code`. -/
def Error.code (e : Error) : Nat := e.m_code

/-- Modelled from the spec: `Error::sql_state` is declared in the header ("The SQL state
string") and defined in `target.cc`, which is not part of the sources at hand. It reads the
SQL state attribute, the member `m_sql_state`. -/
def Error.sql_state (e : Error) : String := e.m_sql_state

/-- Modelled from the spec: `Error::message` is declared in the header ("The human readable
error message") and defined in `target.cc`, which is not part of the sources at hand. It
reads the message attribute, the member `m_message`. -/
def Error.message (e : Error) : String := e.m_message

/-- Modelled from the spec: `mxb_assert` is a macro of a header that is not part of the
sources at hand. The specification (4.5 and 7) describes it as a "fatal assertion": when
the condition is false the call stops there. -/
def mxb_assert (cond : Bool) : Option Unit :=
  if cond then some () else none

/-- How the body of a member function ends: it returns, or it stops at a failed assertion;
in both cases with the state the object has at that point. -/
inductive Outcome (α : Type) where
  | returned (state : α)
  | asserted (state : α)
  deriving DecidableEq

/-- Embeds the body of `Error::set` statement by statement: the assertion on the length of
the SQL-state range, then the three assignments in source order. -/
def Error.set_outcome (e : Error) (code : Nat) (sql_state message : String) :
    Outcome Error :=
  match mxb_assert (sql_state.length == 5) with
  | none => Outcome.asserted e
  | some () =>
    let e1 : Error := { e with m_code := code % 2 ^ 16 }
    let e2 : Error := { e1 with m_sql_state := sql_state }
    let e3 : Error := { e2 with m_message := message }
    Outcome.returned e3

/-! ## Session variables of a `Reply` -/

/-- The key is present in `m_variables`: `m_variables.find(key) != m_variables.end()`. -/
def Reply.has_variable (r : Reply) (key : String) : Bool :=
  (r.m_variables.find? (fun kv => kv.1 == key)).isSome

/-- The value a call gives to the variable `key`: the second argument of a `set_variable`
call with that key, nothing for every other call. -/
def ReplyCall.variable (key : String) : ReplyCall → Option String
  | ReplyCall.set_variable k v => if k = key then some v else none
  | _ => none

/-- The eleven status flags, in the order of their definition. -/
def statusFlags : List Nat :=
  [SERVER_RUNNING, SERVER_MAINT, SERVER_AUTH_ERROR, SERVER_MASTER, SERVER_SLAVE,
    SERVER_DRAINING, SERVER_DISK_SPACE_EXHAUSTED, SERVER_SLAVE_OF_EXT_MASTER, SERVER_RELAY,
    SERVER_JOINED, SERVER_MASTER_STICKINESS]

/-! ## `class Target` (target.hh, lines 413-416) -/

/-- A target, as far as the status predicates see it: the word returned by the virtual
member function `status()`. -/
structure Target where
  status : Nat

/-- Embeds `Target::is_in_cluster`. -/
def Target.is_in_cluster (t : Target) : Bool :=
  (t.status &&& (SERVER_MASTER ||| SERVER_SLAVE ||| SERVER_RELAY ||| SERVER_JOINED)) != 0

/-! ## `Error::is_rollback` -/

/-- Modelled from the spec: `Error::is_rollback` is declared in the header ("True if the
SQLSTATE is 40XXX: a rollback error") and defined in `target.cc`, which is not part of the
sources at hand. The specification (4.5) says that it "checks the first two SQL-state
characters equal `"40"`". -/
def Error.is_rollback (e : Error) : Bool :=
  e.m_sql_state.data.take 2 == "40".data

/-! ## `struct Target::Stats` (target.hh, lines 266-281) -/

/-- The counters of `Target::Stats` with their initialisers: four `int` members and the
`uint64_t` member `packets`. -/
structure Stats where
  n_connections : Int := 0
  n_max_connections : Int := 0
  n_current : Int := 0
  n_current_ops : Int := 0
  packets : Nat := 0
  deriving DecidableEq

/-- Modelled from the spec: `Stats::add_connection` is declared in the header and defined in
`target.cc`, which is not part of the sources at hand. The specification describes
`n_connections` as cumulative, `n_current` as the live count and `n_max_connections` as the
high-water mark (3), and says that one call "increments `n_current` and `n_connections` by
exactly" one (8). -/
def Stats.add_connection (s : Stats) : Stats :=
  { s with
    n_connections := s.n_connections + 1
    n_current := s.n_current + 1
    n_max_connections := max s.n_max_connections (s.n_current + 1) }

/-- Modelled from the spec: `Stats::remove_connection` is declared in the header and defined
in `target.cc`, which is not part of the sources at hand. The specification says that it
takes one connection off the live count and "never drives `n_current` negative" (3, 8). -/
def Stats.remove_connection (s : Stats) : Stats :=
  { s with n_current := if 0 < s.n_current then s.n_current - 1 else s.n_current }

/-- One call of a `Stats` mutator. -/
inductive StatsCall where
  | add_connection
  | remove_connection
  deriving DecidableEq

/-- The effect of one mutator call on the counters. -/
def Stats.call (s : Stats) : StatsCall → Stats
  | StatsCall.add_connection => s.add_connection
  | StatsCall.remove_connection => s.remove_connection

/-- A sequence of mutator calls, made one after the other on the same counters. -/
def Stats.calls (s : Stats) (cs : List StatsCall) : Stats :=
  cs.foldl Stats.call s

/-! ## `class Endpoint` (target.hh, lines 151-179) -/

/-- The null pointer value. -/
def nullptr : Nat := 0

/-- The data member of `class Endpoint`: `void* m_data {nullptr}`, a pointer value. -/
structure Endpoint where
  m_data : Nat := nullptr
  deriving DecidableEq

/-- Embeds `Endpoint::set_userdata`. -/
def Endpoint.set_userdata (e : Endpoint) (data : Nat) : Endpoint :=
  { e with m_data := data }

/-- Embeds `Endpoint::get_userdata`. -/
def Endpoint.get_userdata (e : Endpoint) : Nat := e.m_data

/-! ## The gateway entry point (gateway.c)

`main` is embedded as a function of the results its environment hands back: the argument
vector, the return values of the library and system calls, and the readable paths. Output
to the log and to `stderr`, the data directory and the worker threads are left out. -/

/-- The functions handed to `atexit` in `main`. -/
inductive ExitFn where
  | skygw_logmanager_exit
  | datadir_cleanup
  | write_footer
  | libmysqld_done
  deriving DecidableEq

/-- What `main` gets from its environment. `atexit k` is the value returned by the call of
`atexit` number `k` (counted from 0); `access path` is the value of `access(path, R_OK)`;
`sigaction_*` is the value `err` that `signal_set` gets back from `sigaction`. -/
structure MainEnv where
  argv : List String
  atexit : Nat → Int
  sigfillset : Int
  sigdelset_SIGHUP : Int
  sigdelset_SIGTERM : Int
  sigprocmask : Int
  sigaction_SIGHUP : Int
  sigaction_SIGTERM : Int
  sigaction_SIGINT : Int
  pthread_sigmask : Int
  getenv_MAXSCALE_HOME : Option String
  access : String → Int
  mysql_library_init : Int
  config_load : String → Int
  serviceStartAll : Int

/-- The places from which `main` reaches the label `return_main`. -/
inductive MainExit where
  /-- Line 462: `atexit` failed in the registration loop. -/
  | exit_functions_not_registered
  /-- Line 494: `-c` was the last argument, `cnf_file == NULL`. -/
  | c_option_without_file
  /-- Lines 528, 540, 552, 563: building or setting the signal set failed. -/
  | signal_set_not_initialized
  /-- Line 605: `signal_set` failed for SIGHUP, SIGTERM or SIGINT. -/
  | signal_handlers_not_set
  /-- Line 616: `pthread_sigmask` failed. -/
  | signal_mask_not_initialized
  /-- Line 627: `atexit(libmysqld_done)` failed. -/
  | libmysqld_done_not_registered
  /-- Line 658: the value of `MAXSCALE_HOME` is not readable. -/
  | home_not_readable
  /-- Line 694: `$MAXSCALE_HOME/etc/MaxScale.cnf` is not readable. -/
  | home_cnf_not_readable
  /-- Line 757: no configuration file was found. -/
  | cnf_file_missing
  /-- Line 787: `mysql_library_init` failed. -/
  | mysql_library_init_failed
  /-- Line 802: `config_load` failed. -/
  | config_load_failed
  /-- Line 823: no service was started. -/
  | no_services_started
  /-- Line 870: the services ran and MaxScale shut down. -/
  | shutdown_completed
  deriving DecidableEq

/-- The state of `main` when control reaches `return_main`: the local `rc`, the place it
came from, the functions registered with `atexit` so far (in call order), the local
`cnf_file` (`none` for `NULL`) and the local `daemon_mode`. -/
structure MainState where
  rc : Int
  exit : MainExit
  registered : List ExitFn
  cnf_file : Option String
  daemon_mode : Bool
  deriving DecidableEq

/-- The outcome of `main`: the value it returns, and the state in which it reached
`return_main`. -/
structure MainResult where
  ret : Int
  state : MainState
  deriving DecidableEq

/-- Embeds `signal_set` (lines 160-182) as a function of the value `err` that `sigaction`
returns: `rc` is 1 when `err < 0` and 0 otherwise. -/
def signal_set (err : Int) : Int :=
  if err < 0 then 1 else 0

/-- The local array `exitfunp` of `main` (lines 432-435), by index; `none` is `NULL`. -/
def exitfunp : Nat → Option ExitFn
  | 0 => some ExitFn.skygw_logmanager_exit
  | 1 => some ExitFn.datadir_cleanup
  | 2 => some ExitFn.write_footer
  | _ => none

/-- Embeds the registration loop of `main` (lines 453-464), from index `i` on:
`for (i=0; exitfunp[i] != NULL; i++) { l = atexit(*exitfunp); if (l != 0) ... }`.
The argument of `atexit` is `*exitfunp`, the element at index 0. The result is `false` when
an `atexit` call failed, with the functions registered until then. The first argument
bounds the number of iterations by the size of the array. -/
def register_exit_functions (atexit : Nat → Int) :
    Nat → Nat → List ExitFn → Bool × List ExitFn
  | 0, _, registered => (true, registered)
  | fuel + 1, i, registered =>
    match exitfunp i with
    | none => (true, registered)
    | some _ =>
      if atexit i ≠ 0 then (false, registered)
      else register_exit_functions atexit fuel (i + 1) (registered ++ (exitfunp 0).toList)

/-- Embeds the argument loop of `main` (lines 466-497) on the arguments that are left:
`-d` clears `daemon_mode`; an argument that starts with `-c` names the configuration file,
either in the rest of the argument or in the next argument, which is `NULL` when `-c` is
the last one. The result is an error, carrying `daemon_mode`, when the loop leaves for
`return_main` with `cnf_file == NULL`, else the final `daemon_mode` and `cnf_file`. -/
def parse_arguments : List String → Bool → Option String → Except Bool (Bool × Option String)
  | [], daemon_mode, cnf_file => Except.ok (daemon_mode, cnf_file)
  | arg :: rest, daemon_mode, cnf_file =>
    let daemon_mode1 := if arg = "-d" then false else daemon_mode
    if arg.data.take 2 = "-c".data then
      if arg.data.drop 2 ≠ [] then
        parse_arguments rest daemon_mode1 (some (String.mk (arg.data.drop 2)))
      else
        match rest with
        | [] => Except.error daemon_mode1
        | next :: rest1 => parse_arguments rest1 daemon_mode1 (some next)
    else
      parse_arguments rest daemon_mode1 cnf_file

/-- Embeds the daemon branch of `main` (lines 520-565): `true` when `sigfillset`, the two
`sigdelset` calls and `sigprocmask` all return 0. -/
def daemon_signal_set (env : MainEnv) : Bool :=
  if env.sigfillset ≠ 0 then false
  else if env.sigdelset_SIGHUP ≠ 0 then false
  else if env.sigdelset_SIGTERM ≠ 0 then false
  else if env.sigprocmask ≠ 0 then false
  else true

/-- Embeds the signal handler block of `main` (lines 570-607): the value of `l` at the label
`sigset_err`. -/
def set_signal_handlers (env : MainEnv) : Int :=
  if signal_set env.sigaction_SIGHUP ≠ 0 then signal_set env.sigaction_SIGHUP
  else if signal_set env.sigaction_SIGTERM ≠ 0 then signal_set env.sigaction_SIGTERM
  else signal_set env.sigaction_SIGINT

/-- Embeds steps 2 and 3 of the configuration file resolution in `main` (lines 630-707),
given the `cnf_file` left by the argument loop. An error is the place from which `main`
leaves for `return_main`; otherwise the result is the new value of `cnf_file`. -/
def resolve_cnf_file (env : MainEnv) (cnf_file : Option String) :
    Except MainExit (Option String) :=
  let step2 : Except MainExit (Option String) :=
    match env.getenv_MAXSCALE_HOME with
    | none => Except.ok cnf_file
    | some home =>
      if env.access home ≠ 0 then Except.error MainExit.home_not_readable
      else
        match cnf_file with
        | some f => Except.ok (some f)
        | none =>
          if env.access (home ++ "/etc/MaxScale.cnf") ≠ 0 then
            Except.error MainExit.home_cnf_not_readable
          else Except.ok (some (home ++ "/etc/MaxScale.cnf"))
  match step2 with
  | Except.error e => Except.error e
  | Except.ok none =>
    if env.access "/etc/MaxScale.cnf" = 0 then Except.ok (some "/etc/MaxScale.cnf")
    else Except.ok none
  | Except.ok (some f) => Except.ok (some f)

/-- Embeds the body of `main` (lines 406-870) up to the label `return_main`: the state in
which the label is reached. The call `atexit(libmysqld_done)` of line 618 is call number 3,
after the three calls of the registration loop. -/
def main_body (env : MainEnv) : MainState :=
  match register_exit_functions env.atexit 4 0 [] with
  | (false, reg) =>
    { rc := 1, exit := MainExit.exit_functions_not_registered, registered := reg,
      cnf_file := none, daemon_mode := true }
  | (true, reg) =>
    match parse_arguments env.argv true none with
    | Except.error daemon_mode =>
      { rc := 1, exit := MainExit.c_option_without_file, registered := reg,
        cnf_file := none, daemon_mode := daemon_mode }
    | Except.ok (daemon_mode, cnf_file) =>
      if daemon_mode && !daemon_signal_set env then
        { rc := 1, exit := MainExit.signal_set_not_initialized, registered := reg,
          cnf_file := cnf_file, daemon_mode := daemon_mode }
      else if set_signal_handlers env ≠ 0 then
        { rc := 1, exit := MainExit.signal_handlers_not_set, registered := reg,
          cnf_file := cnf_file, daemon_mode := daemon_mode }
      else if env.pthread_sigmask ≠ 0 then
        { rc := 1, exit := MainExit.signal_mask_not_initialized, registered := reg,
          cnf_file := cnf_file, daemon_mode := daemon_mode }
      else if env.atexit 3 ≠ 0 then
        { rc := 1, exit := MainExit.libmysqld_done_not_registered, registered := reg,
          cnf_file := cnf_file, daemon_mode := daemon_mode }
      else
        let reg1 := reg ++ [ExitFn.libmysqld_done]
        match resolve_cnf_file env cnf_file with
        | Except.error e =>
          { rc := 1, exit := e, registered := reg1, cnf_file := cnf_file,
            daemon_mode := daemon_mode }
        | Except.ok none =>
          { rc := 1, exit := MainExit.cnf_file_missing, registered := reg1,
            cnf_file := none, daemon_mode := daemon_mode }
        | Except.ok (some f) =>
          if env.mysql_library_init ≠ 0 then
            { rc := 1, exit := MainExit.mysql_library_init_failed, registered := reg1,
              cnf_file := some f, daemon_mode := daemon_mode }
          else if env.config_load f = 0 then
            { rc := 1, exit := MainExit.config_load_failed, registered := reg1,
              cnf_file := some f, daemon_mode := daemon_mode }
          else if env.serviceStartAll = 0 then
            { rc := 1, exit := MainExit.no_services_started, registered := reg1,
              cnf_file := some f, daemon_mode := daemon_mode }
          else
            { rc := 0, exit := MainExit.shutdown_completed, registered := reg1,
              cnf_file := some f, daemon_mode := daemon_mode }

/-- Embeds the label `return_main` (lines 872-874): the statement is `return 0;`, whatever
the value of `rc`. -/
def return_main (st : MainState) : MainResult :=
  { ret := 0, state := st }

/-- Embeds `main` (lines 406-874). -/
def main (env : MainEnv) : MainResult :=
  return_main (main_body env)

/-- The return value that the documentation of `main` asks for ("@return 0 in success, 1
otherwise", line 389), as a function of the state at `return_main`. It is written from the
comment, for comparison with `main`. -/
def main_documented_return (st : MainState) : Int :=
  if st.exit = MainExit.shutdown_completed then 0 else 1

/-- An environment in which every call succeeds: `atexit` and the signal calls return 0,
`MAXSCALE_HOME` is not set, every path is readable, the MySQL library starts, the
configuration loads and one service starts. -/
def MainEnv.allSucceed (argv : List String) : MainEnv :=
  { argv := argv, atexit := fun _ => 0, sigfillset := 0, sigdelset_SIGHUP := 0,
    sigdelset_SIGTERM := 0, sigprocmask := 0, sigaction_SIGHUP := 0, sigaction_SIGTERM := 0,
    sigaction_SIGINT := 0, pthread_sigmask := 0, getenv_MAXSCALE_HOME := none,
    access := fun _ => 0, mysql_library_init := 0, config_load := fun _ => 1,
    serviceStartAll := 1 }

/-! ## The getters of a `Reply`, taken together -/

/-- The values of all getters of a `Reply` (target.hh, lines 520-651), one field per
getter; `get_variable` is the getter as a function of the variable name. -/
structure ReplyView where
  state : ReplyState
  command : Nat
  error : Error
  is_complete : Bool
  has_started : Bool
  is_resultset : Bool
  is_ok : Bool
  rows_read : Nat
  num_warnings : Nat
  size : Nat
  field_counts : List Nat
  generated_id : Nat
  param_count : Nat
  get_variable : String → String

/-- What the getters of a reply return. -/
def Reply.view (r : Reply) : ReplyView :=
  { state := r.state, command := r.command, error := r.error,
    is_complete := r.is_complete, has_started := r.has_started,
    is_resultset := r.is_resultset, is_ok := r.is_ok, rows_read := r.rows_read,
    num_warnings := r.num_warnings, size := r.size, field_counts := r.field_counts,
    generated_id := r.generated_id, param_count := r.param_count,
    get_variable := r.get_variable }

/-- The call is `set_reply_state` or `clear`. -/
def ReplyCall.isStateOrClear : ReplyCall → Bool
  | ReplyCall.set_reply_state _ => true
  | ReplyCall.clear => true
  | _ => false

/-! ## Environments of `main` for the configuration file resolution -/

/-- A masked comparison is decided by the bits below the width of mask and value. -/
theorem land_eq_iff_bits (s m v n : Nat) (hm : m < 2 ^ n) (hv : v < 2 ^ n) :
    s &&& m = v ↔ ∀ i, i < n → (s.testBit i && m.testBit i) = v.testBit i := by
  constructor
  · intro h i _
    rw [← h, Nat.testBit_and]
  · intro h
    apply Nat.eq_of_testBit_eq
    intro i
    rw [Nat.testBit_and]
    by_cases hi : i < n
    · exact h i hi
    · have hle : 2 ^ n ≤ 2 ^ i := Nat.pow_le_pow_right (by decide) (Nat.le_of_not_lt hi)
      rw [Nat.testBit_lt_two_pow (Nat.lt_of_lt_of_le hm hle),
        Nat.testBit_lt_two_pow (Nat.lt_of_lt_of_le hv hle), Bool.and_false]

/-- Testing a single flag `1 <<< k` with `&` and converting to `bool` reads bit `k`. -/
theorem land_one_shiftLeft_ne_zero (s k : Nat) :
    ((s &&& (1 <<< k)) != 0) = s.testBit k := by
  rw [Bool.eq_iff_iff, bne_iff_ne, Nat.one_shiftLeft]
  constructor
  · intro h
    by_contra hb
    apply h
    apply Nat.eq_of_testBit_eq
    intro i
    rw [Nat.testBit_and, Nat.testBit_two_pow, Nat.zero_testBit]
    by_cases hik : k = i
    · subst hik
      simp [hb]
    · simp [hik]
  · intro hb h
    have := congrArg (fun x => Nat.testBit x k) h
    simp [Nat.testBit_two_pow, hb] at this

/-! ## Lemmas on single calls and call sequences -/

/-- A call of `add_rows` or `set_reply_state` always returns; the row count afterwards is
the row count before plus the rows of the call, modulo `2 ^ 64`, and stays below `2 ^ 64`. -/
theorem Reply.call_rowsOrState (r : Reply) (c : ReplyCall) (hc : c.isRowsOrState = true)
    (hr : r.m_row_count < 2 ^ 64) :
    ∃ r1, r.call c = some r1 ∧ r1.m_row_count = (r.m_row_count + c.rows) % 2 ^ 64 := by
  cases c <;> simp [ReplyCall.isRowsOrState] at hc
  · exact ⟨_, rfl, (Nat.mod_eq_of_lt hr).symm⟩
  · exact ⟨_, rfl, rfl⟩

/-- Every call other than `clear` keeps the recorded field counts and appends the argument
of an `add_field_count`. -/
theorem Reply.call_field_counts (r r1 : Reply) (c : ReplyCall) (hc : c ≠ ReplyCall.clear)
    (h : r.call c = some r1) :
    r1.m_field_counts = r.m_field_counts ++ c.fieldCount.toList := by
  cases c with
  | clear => exact absurd rfl hc
  | set_error code st msg =>
    simp only [Reply.call, Reply.set_error, Option.map_eq_some'] at h
    obtain ⟨e, _, he⟩ := h
    subst he
    simp [ReplyCall.fieldCount]
  | set_variable k v =>
    simp only [Reply.call, Option.some.injEq] at h
    subst h
    unfold Reply.set_variable
    cases r.m_variables.find? (fun kv => kv.1 == k) <;> simp [ReplyCall.fieldCount]
  | _ =>
    simp only [Reply.call, Option.some.injEq] at h
    subst h
    simp [ReplyCall.fieldCount, Reply.set_command, Reply.set_reply_state,
      Reply.add_rows, Reply.add_bytes, Reply.add_field_count, Reply.set_generated_id,
      Reply.set_param_count, Reply.set_is_ok, Reply.set_num_warnings]

/-- A sequence of calls without `clear` appends the arguments of its `add_field_count`
calls, in order, to the recorded field counts. -/
theorem Reply.calls_field_counts (cs : List ReplyCall) :
    ∀ (r r1 : Reply), ReplyCall.clear ∉ cs → r.calls cs = some r1 →
      r1.m_field_counts = r.m_field_counts ++ cs.filterMap ReplyCall.fieldCount := by
  induction cs with
  | nil =>
    intro r r1 _ h
    simp only [Reply.calls, Option.some.injEq] at h
    simp [h]
  | cons c cs ih =>
    intro r r1 hmem h
    simp only [List.mem_cons, not_or] at hmem
    simp only [Reply.calls, Option.bind_eq_some] at h
    obtain ⟨r2, h2, h3⟩ := h
    rw [ih r2 r1 hmem.2 h3, Reply.call_field_counts r r2 c (Ne.symm hmem.1) h2]
    cases hfc : c.fieldCount <;> simp [List.filterMap_cons, hfc]

/-- A sequence of `add_rows` and `set_reply_state` calls always returns, and the row count
afterwards is the row count before plus the rows of all calls, modulo `2 ^ 64`. -/
theorem Reply.calls_rowsOrState (cs : List ReplyCall) :
    ∀ r : Reply, r.m_row_count < 2 ^ 64 → (∀ c ∈ cs, c.isRowsOrState = true) →
      ∃ r1, r.calls cs = some r1 ∧
        r1.m_row_count = (r.m_row_count + (cs.map ReplyCall.rows).sum) % 2 ^ 64 := by
  induction cs with
  | nil =>
    intro r hr _
    exact ⟨r, rfl, by rw [List.map_nil, List.sum_nil, Nat.add_zero, Nat.mod_eq_of_lt hr]⟩
  | cons c cs ih =>
    intro r hr hcs
    obtain ⟨r2, h2, e2⟩ := Reply.call_rowsOrState r c (hcs c (List.mem_cons_self c cs)) hr
    have hr2 : r2.m_row_count < 2 ^ 64 := by
      rw [e2]
      exact Nat.mod_lt _ (by decide)
    obtain ⟨r1, h1, e1⟩ := ih r2 hr2 (fun d hd => hcs d (List.mem_cons_of_mem c hd))
    refine ⟨r1, ?_, ?_⟩
    · simp [Reply.calls, h2, h1]
    · rw [e1, e2, List.map_cons, List.sum_cons, Nat.mod_add_mod, Nat.add_assoc]

/-- The calls of a sequence append a field count exactly when one of them is
`add_field_count`. -/
theorem ReplyCall.filterMap_fieldCount_ne_nil (cs : List ReplyCall) :
    cs.filterMap ReplyCall.fieldCount ≠ [] ↔ ∃ n, ReplyCall.add_field_count n ∈ cs := by
  constructor
  · intro hne
    obtain ⟨n, hn⟩ := List.exists_mem_of_ne_nil _ hne
    rw [List.mem_filterMap] at hn
    obtain ⟨c, hc, hcn⟩ := hn
    refine ⟨n, ?_⟩
    cases c <;> simp [ReplyCall.fieldCount] at hcn
    subst hcn
    exact hc
  · rintro ⟨n, hn⟩
    exact List.ne_nil_of_mem (List.mem_filterMap.mpr ⟨_, hn, rfl⟩)

/-! ## Claims on the status predicates -/

/-- C1: `status_is_master s` holds exactly when the RUNNING (bit 0) and MASTER (bit 3) bits
are set and the MAINT bit (bit 1) is clear; two status words that agree on these three bits
get the same answer, whatever their other bits are. -/
theorem C1_status_is_master_iff :
    (∀ s : Nat, status_is_master s = true ↔
      (s.testBit 0 = true ∧ s.testBit 3 = true ∧ s.testBit 1 = false)) ∧
    (∀ s t : Nat, s.testBit 0 = t.testBit 0 → s.testBit 1 = t.testBit 1 →
      s.testBit 3 = t.testBit 3 → status_is_master s = status_is_master t) := by
  have key : ∀ s : Nat, status_is_master s = true ↔
      (s.testBit 0 = true ∧ s.testBit 3 = true ∧ s.testBit 1 = false) := by
    intro s
    unfold status_is_master
    rw [beq_iff_eq, land_eq_iff_bits s _ _ 4 (by decide) (by decide)]
    simp only [Nat.forall_lt_succ, Nat.not_lt_zero, false_imp_iff, implies_true, true_and]
    cases s.testBit 0 <;> cases s.testBit 1 <;> cases s.testBit 2 <;> cases s.testBit 3 <;>
      decide
  refine ⟨key, ?_⟩
  intro s t h0 h1 h3
  rw [Bool.eq_iff_iff, key s, key t, h0, h1, h3]

/-- Witness for C1: a running master (status 9) is a master, also when DRAINING and SLAVE
are set on top (status 57). -/
theorem C1_status_is_master_iff_witness :
    status_is_master 9 = true ∧ status_is_master 57 = status_is_master 9 :=
  ⟨(C1_status_is_master_iff.1 9).mpr (by decide),
    C1_status_is_master_iff.2 57 9 (by decide) (by decide) (by decide)⟩

/-- C2: `status_is_connectable s` holds exactly when `s & (RUNNING|MAINT|DRAINING)` equals
`RUNNING`, that is when RUNNING (bit 0) is set and MAINT (bit 1) and DRAINING (bit 5) are
clear; a draining server and a server in maintenance are never connectable. -/
theorem C2_status_is_connectable_iff :
    (∀ s : Nat, status_is_connectable s = true ↔
      s &&& (SERVER_RUNNING ||| SERVER_MAINT ||| SERVER_DRAINING) = SERVER_RUNNING) ∧
    (∀ s : Nat, status_is_connectable s = true ↔
      (s.testBit 0 = true ∧ s.testBit 1 = false ∧ s.testBit 5 = false)) ∧
    (∀ s : Nat, status_is_draining s = true → status_is_connectable s = false) ∧
    (∀ s : Nat, status_is_in_maint s = true → status_is_connectable s = false) := by
  have key : ∀ s : Nat, status_is_connectable s = true ↔
      (s.testBit 0 = true ∧ s.testBit 1 = false ∧ s.testBit 5 = false) := by
    intro s
    unfold status_is_connectable
    rw [beq_iff_eq, land_eq_iff_bits s _ _ 6 (by decide) (by decide)]
    simp only [Nat.forall_lt_succ, Nat.not_lt_zero, false_imp_iff, implies_true, true_and]
    cases s.testBit 0 <;> cases s.testBit 1 <;> cases s.testBit 2 <;> cases s.testBit 3 <;>
      cases s.testBit 4 <;> cases s.testBit 5 <;> decide
  refine ⟨fun s => ?_, key, fun s h => ?_, fun s h => ?_⟩
  · unfold status_is_connectable
    exact beq_iff_eq
  · rw [status_is_draining, SERVER_DRAINING, land_one_shiftLeft_ne_zero] at h
    rw [← Bool.not_eq_true, key, h]
    simp
  · rw [status_is_in_maint, SERVER_MAINT, land_one_shiftLeft_ne_zero] at h
    rw [← Bool.not_eq_true, key, h]
    simp

/-- Witness for C2: status 33 (RUNNING and DRAINING) and status 3 (RUNNING and MAINT) are
not connectable. -/
theorem C2_status_is_connectable_iff_witness :
    status_is_connectable 33 = false ∧ status_is_connectable 3 = false :=
  ⟨C2_status_is_connectable_iff.2.2.1 33 (by decide),
    C2_status_is_connectable_iff.2.2.2 3 (by decide)⟩

/-! ## Claims on `Reply` -/

/-- C3: `is_ok()` is true exactly when the OK marker is true, no field count has been
recorded (`is_resultset()` is false) and `error()` evaluates to false; the OK marker is the
value last given to `set_is_ok`, which leaves the field counts and the error alone. -/
theorem C3_is_ok_iff :
    (∀ r : Reply, r.is_ok = true ↔
      (r.m_is_ok = true ∧ r.is_resultset = false ∧ r.error.toBool = false)) ∧
    (∀ (r : Reply) (b : Bool), (r.set_is_ok b).m_is_ok = b ∧
      (r.set_is_ok b).is_resultset = r.is_resultset ∧ (r.set_is_ok b).error = r.error) := by
  constructor
  · intro r
    simp [Reply.is_ok, and_assoc]
  · intro r b
    exact ⟨rfl, rfl, rfl⟩

/-- C4: row counts accumulate. On a reply whose row count is a 64-bit value, every sequence
of `add_rows` and `set_reply_state` calls returns, and `rows_read()` afterwards is the
previous `rows_read()` plus the sum of the `add_rows` arguments, as a 64-bit unsigned
value. -/
theorem C4_rows_accumulate (r : Reply) (cs : List ReplyCall)
    (hr : r.rows_read < 2 ^ 64) (hcs : ∀ c ∈ cs, c.isRowsOrState = true) :
    ∃ r1, r.calls cs = some r1 ∧
      r1.rows_read = (r.rows_read + (cs.map ReplyCall.rows).sum) % 2 ^ 64 :=
  Reply.calls_rowsOrState cs r hr hcs

/-- Witness for C4: from a cleared reply, `add_rows(10)` and `add_rows(5)` with state changes
in between give `rows_read() == 15`. -/
theorem C4_rows_accumulate_witness :
    ∃ r1, (Reply.clear {}).calls [ReplyCall.set_reply_state ReplyState.RSET_ROWS,
        ReplyCall.add_rows 10, ReplyCall.add_rows 5,
        ReplyCall.set_reply_state ReplyState.DONE] = some r1 ∧ r1.rows_read = 15 :=
  C4_rows_accumulate (Reply.clear {}) [ReplyCall.set_reply_state ReplyState.RSET_ROWS,
    ReplyCall.add_rows 10, ReplyCall.add_rows 5, ReplyCall.set_reply_state ReplyState.DONE]
    (by decide) (by decide)

/-- C5, evaluated on the code: `add_bytes` stores its argument. After `add_bytes(10)` and
`add_bytes(5)` on a fresh reply `size()` is 5, the size of the last chunk, and not the
total 15; in general the size after two calls is the second argument. -/
theorem C5_add_bytes_overwrites :
    (((({} : Reply).add_bytes 10).add_bytes 5).size = 5) ∧
    (((({} : Reply).add_bytes 10).add_bytes 5).size ≠ (({} : Reply).size + (10 + 5)) % 2 ^ 64) ∧
    (∀ (r : Reply) (a b : Nat), ((r.add_bytes a).add_bytes b).size = b) := by
  refine ⟨rfl, by decide, fun _ _ _ => rfl⟩

/-- C6: field counts are recorded one per call, in call order: after the calls
`add_field_count(f1)`, ..., `add_field_count(fk)` the list `field_counts()` is the list
before followed by `[f1, ..., fk]`; from a cleared reply the calls with 3 and 5 give
`[3, 5]`. -/
theorem C6_field_counts_append :
    (∀ (fs : List Nat) (r : Reply),
      (fs.foldl Reply.add_field_count r).field_counts = r.field_counts ++ fs) ∧
    (∀ r : Reply, ((r.clear.add_field_count 3).add_field_count 5).field_counts = [3, 5]) := by
  constructor
  · intro fs
    induction fs with
    | nil => intro r; simp
    | cons f fs ih =>
      intro r
      rw [List.foldl_cons, ih]
      simp [Reply.field_counts, Reply.add_field_count]
  · intro r
    rfl

/-- C7: `is_resultset()` is true exactly when `field_counts()` is non-empty; it does not
depend on the reply state, the OK flag or the error; and after a `clear()` followed by any
returning sequence of mutator calls without a further `clear()`, it is true exactly when
the sequence has an `add_field_count` call. -/
theorem C7_is_resultset_iff :
    (∀ r : Reply, r.is_resultset = true ↔ r.field_counts ≠ []) ∧
    (∀ (r : Reply) (s : ReplyState) (ok : Bool) (e : Error),
      ({ r with m_reply_state := s, m_is_ok := ok, m_error := e } : Reply).is_resultset
        = r.is_resultset) ∧
    (∀ (r r1 : Reply) (cs : List ReplyCall), ReplyCall.clear ∉ cs →
      r.clear.calls cs = some r1 →
      (r1.is_resultset = true ↔ ∃ n, ReplyCall.add_field_count n ∈ cs)) := by
  refine ⟨fun r => ?_, fun _ _ _ _ => rfl, fun r r1 cs hcs h => ?_⟩
  · simp [Reply.is_resultset, Reply.field_counts]
  · have hfc := Reply.calls_field_counts cs r.clear r1 hcs h
    simp only [Reply.is_resultset, hfc, Reply.clear, List.nil_append, Bool.not_eq_true',
      List.isEmpty_eq_false]
    exact ReplyCall.filterMap_fieldCount_ne_nil cs

/-- Witness for C7: after `clear()`, the calls `set_reply_state(START)`,
`add_field_count(3)`, `set_is_ok(true)` return a reply that is a result set. -/
theorem C7_is_resultset_iff_witness :
    ReplyCall.clear ∉ [ReplyCall.set_reply_state ReplyState.START,
      ReplyCall.add_field_count 3, ReplyCall.set_is_ok true] ∧
    (({} : Reply).clear.calls [ReplyCall.set_reply_state ReplyState.START,
      ReplyCall.add_field_count 3, ReplyCall.set_is_ok true]
      = some { m_reply_state := ReplyState.START, m_field_counts := [3], m_is_ok := true }) ∧
    ({ m_reply_state := ReplyState.START, m_field_counts := [3], m_is_ok := true }
      : Reply).is_resultset = true :=
  ⟨by decide, rfl,
    (C7_is_resultset_iff.2.2 {}
      { m_reply_state := ReplyState.START, m_field_counts := [3], m_is_ok := true }
      [ReplyCall.set_reply_state ReplyState.START, ReplyCall.add_field_count 3,
        ReplyCall.set_is_ok true] (by decide) rfl).mpr ⟨3, by decide⟩⟩

/-- C8: `is_complete()` is true exactly when `state()` is `DONE`; it is false in each of
`START`, `RSET_COLDEF`, `RSET_COLDEF_EOF`, `RSET_ROWS` and `PREPARE`. -/
theorem C8_is_complete_iff :
    (∀ r : Reply, r.is_complete = true ↔ r.state = ReplyState.DONE) ∧
    (∀ r : Reply, (r.set_reply_state ReplyState.DONE).is_complete = true ∧
      (r.set_reply_state ReplyState.START).is_complete = false ∧
      (r.set_reply_state ReplyState.RSET_COLDEF).is_complete = false ∧
      (r.set_reply_state ReplyState.RSET_COLDEF_EOF).is_complete = false ∧
      (r.set_reply_state ReplyState.RSET_ROWS).is_complete = false ∧
      (r.set_reply_state ReplyState.PREPARE).is_complete = false) := by
  constructor
  · intro r
    simp [Reply.is_complete, Reply.state]
  · intro r
    exact ⟨rfl, rfl, rfl, rfl, rfl, rfl⟩

/-- C9: `has_started()` is true exactly when `state()` is one of `RSET_COLDEF`,
`RSET_COLDEF_EOF`, `RSET_ROWS` or `PREPARE`; it is false in `START` and in `DONE`; and
`has_started()` and `is_complete()` are never both true. -/
theorem C9_has_started_iff :
    (∀ r : Reply, r.has_started = true ↔
      (r.state = ReplyState.RSET_COLDEF ∨ r.state = ReplyState.RSET_COLDEF_EOF ∨
        r.state = ReplyState.RSET_ROWS ∨ r.state = ReplyState.PREPARE)) ∧
    (∀ r : Reply, (r.set_reply_state ReplyState.START).has_started = false ∧
      (r.set_reply_state ReplyState.DONE).has_started = false) ∧
    (∀ r : Reply, (r.has_started && r.is_complete) = false) := by
  refine ⟨fun r => ?_, fun r => ⟨rfl, rfl⟩, fun r => ?_⟩
  · unfold Reply.has_started Reply.state
    cases r.m_reply_state <;> decide
  · unfold Reply.has_started Reply.is_complete
    cases r.m_reply_state <;> decide

/-- C10: on a reply with no error set and no field count recorded, `is_ok()` is true after
`set_is_ok(true)`; after a subsequent `add_field_count(n)`, for every `n`, `is_ok()` is
false and `is_resultset()` is true. -/
theorem C10_ok_then_field_count (r : Reply) (herr : r.error.toBool = false)
    (hfc : r.field_counts = []) :
    (r.set_is_ok true).is_ok = true ∧
    ∀ n : Nat, ((r.set_is_ok true).add_field_count n).is_ok = false ∧
      ((r.set_is_ok true).add_field_count n).is_resultset = true := by
  unfold Reply.field_counts at hfc
  unfold Reply.error at herr
  constructor
  · simp [Reply.is_ok, Reply.is_resultset, Reply.set_is_ok, Reply.error, herr, hfc]
  · intro n
    simp [Reply.is_ok, Reply.is_resultset, Reply.set_is_ok, Reply.add_field_count]

/-- Witness for C10: a fresh reply has no error and no field count; `set_is_ok(true)` makes
it OK and `add_field_count(3)` turns it into a result set. -/
theorem C10_ok_then_field_count_witness :
    ({} : Reply).error.toBool = false ∧ ({} : Reply).field_counts = [] ∧
    (({} : Reply).set_is_ok true).is_ok = true ∧
    ((({} : Reply).set_is_ok true).add_field_count 3).is_ok = false ∧
    ((({} : Reply).set_is_ok true).add_field_count 3).is_resultset = true :=
  ⟨by decide, rfl, (C10_ok_then_field_count {} (by decide) rfl).1,
    ((C10_ok_then_field_count {} (by decide) rfl).2 3).1,
    ((C10_ok_then_field_count {} (by decide) rfl).2 3).2⟩

/-! ## Lemmas on session variables -/

/-- The entry `set_variable key value` leaves under the name `name`: the entry found before,
else the new pair when `key` is `name`. -/
theorem Reply.set_variable_find (r : Reply) (key value name : String) :
    (r.set_variable key value).m_variables.find? (fun kv => kv.1 == name)
      = (r.m_variables.find? (fun kv => kv.1 == name)).or
          (if key = name then some (key, value) else none) := by
  unfold Reply.set_variable
  cases hk : r.m_variables.find? (fun kv => kv.1 == key) with
  | none =>
    simp only [List.find?_append, List.find?_singleton, beq_iff_eq]
  | some kv =>
    simp only
    by_cases hkn : key = name
    · subst hkn
      rw [hk]
      rfl
    · rw [if_neg hkn, Option.or_none]

/-- Every call other than `clear` keeps the entry found under `name`, and adds one only
when it is a `set_variable` with that name. -/
theorem Reply.call_variables (r r1 : Reply) (c : ReplyCall) (name : String)
    (hc : c ≠ ReplyCall.clear) (h : r.call c = some r1) :
    r1.m_variables.find? (fun kv => kv.1 == name)
      = (r.m_variables.find? (fun kv => kv.1 == name)).or
          ((c.variable name).map (fun v => (name, v))) := by
  cases c with
  | clear => exact absurd rfl hc
  | set_error code st msg =>
    simp only [Reply.call, Reply.set_error, Option.map_eq_some'] at h
    obtain ⟨e, _, he⟩ := h
    subst he
    simp [ReplyCall.variable]
  | set_variable k v =>
    simp only [Reply.call, Option.some.injEq] at h
    subst h
    rw [Reply.set_variable_find]
    by_cases hkn : k = name
    · subst hkn
      simp [ReplyCall.variable]
    · simp [ReplyCall.variable, hkn]
  | _ =>
    simp only [Reply.call, Option.some.injEq] at h
    subst h
    simp [ReplyCall.variable, Reply.set_command, Reply.set_reply_state,
      Reply.add_rows, Reply.add_bytes, Reply.add_field_count, Reply.set_generated_id,
      Reply.set_param_count, Reply.set_is_ok, Reply.set_num_warnings]

/-- After a sequence of calls without `clear`, the entry found under `name` is the one
found before, else the value of the first `set_variable` call with that name. -/
theorem Reply.calls_variables (name : String) (cs : List ReplyCall) :
    ∀ (r r1 : Reply), ReplyCall.clear ∉ cs → r.calls cs = some r1 →
      r1.m_variables.find? (fun kv => kv.1 == name)
        = (r.m_variables.find? (fun kv => kv.1 == name)).or
            ((cs.findSome? (ReplyCall.variable name)).map (fun v => (name, v))) := by
  induction cs with
  | nil =>
    intro r r1 _ h
    simp only [Reply.calls, Option.some.injEq] at h
    simp [h]
  | cons c cs ih =>
    intro r r1 hmem h
    simp only [List.mem_cons, not_or] at hmem
    simp only [Reply.calls, Option.bind_eq_some] at h
    obtain ⟨r2, h2, h3⟩ := h
    rw [ih r2 r1 hmem.2 h3, Reply.call_variables r r2 c name (Ne.symm hmem.1) h2,
      Option.or_assoc, List.findSome?_cons]
    cases hv : c.variable name <;> simp

/-! ## Claims on `Reply::clear`, `Error::set` and assertions -/

/-- C11: after `clear()`, whatever the reply held before, `state()` is `DONE`,
`rows_read()` and `size()` are 0, `field_counts()` is empty, `error()` evaluates to false
and `is_ok()` is false; the cleared reply is the default-constructed one. -/
theorem C11_clear_defaults :
    ∀ r : Reply, r.clear.state = ReplyState.DONE ∧ r.clear.rows_read = 0 ∧
      r.clear.size = 0 ∧ r.clear.field_counts = [] ∧ r.clear.error.toBool = false ∧
      r.clear.is_ok = false ∧ r.clear = ({} : Reply) := by
  intro r
  have hclear : r.clear = ({} : Reply) := rfl
  refine ⟨rfl, rfl, rfl, rfl, ?_, ?_, hclear⟩
  · rw [hclear]
    decide
  · rw [hclear]
    decide

/-- C12, evaluated on the code: `Error::set` keeps the low 16 bits of the code. After
`set(66581, "28000", "Access denied")` on a default error `code()` is 1045 and not 66581,
while the SQL state and the message are stored as given; for every code `c` the stored code
is `c` modulo `2 ^ 16`. -/
theorem C12_set_narrows_code :
    ((({} : Error).set 66581 "28000" "Access denied").map Error.code = some 1045) ∧
    ((({} : Error).set 66581 "28000" "Access denied").map Error.code ≠ some 66581) ∧
    ((({} : Error).set 66581 "28000" "Access denied").map Error.sql_state = some "28000") ∧
    ((({} : Error).set 66581 "28000" "Access denied").map Error.message
      = some "Access denied") ∧
    (∀ (e : Error) (c : Nat) (m : String),
      (e.set c "28000" m).map Error.code = some (c % 2 ^ 16)) := by
  refine ⟨by decide, by decide, by decide, by decide, fun e c m => ?_⟩
  have h5 : "28000".length = 5 := by decide
  simp [Error.set, Error.code, h5]

/-- C13: `Error::set` returns exactly when the SQL-state range has 5 characters. When the
length is not 5 the call stops at the assertion, which comes before every assignment, so
the error still has the code, SQL state and message it had before; when the length is 5
the call runs to its end. -/
theorem C13_set_requires_five :
    (∀ (e : Error) (c : Nat) (s m : String), (e.set c s m).isSome = true ↔ s.length = 5) ∧
    (∀ (e : Error) (c : Nat) (s m : String), s.length ≠ 5 →
      e.set c s m = none ∧ e.set_outcome c s m = Outcome.asserted e) ∧
    (∀ (e : Error) (c : Nat) (s m : String), s.length = 5 →
      ∃ e1, e.set c s m = some e1 ∧ e.set_outcome c s m = Outcome.returned e1) := by
  refine ⟨fun e c s m => ?_, fun e c s m h => ?_, fun e c s m h => ?_⟩
  · unfold Error.set
    split <;> simp [*]
  · simp [Error.set, Error.set_outcome, mxb_assert, h]
  · simp [Error.set, Error.set_outcome, mxb_assert, h]

/-- Witness for C13: the four-character SQL state "4000" stops `set` at the assertion and
leaves an error holding (1045, "28000", "Access denied") as it was; the five-character
state "40001" is accepted. -/
theorem C13_set_requires_five_witness :
    "4000".length ≠ 5 ∧
    (({ m_code := 1045, m_sql_state := "28000", m_message := "Access denied" } : Error).set
      1213 "4000" "Deadlock" = none) ∧
    (({ m_code := 1045, m_sql_state := "28000", m_message := "Access denied" }
      : Error).set_outcome 1213 "4000" "Deadlock"
      = Outcome.asserted
        { m_code := 1045, m_sql_state := "28000", m_message := "Access denied" }) ∧
    "40001".length = 5 ∧
    (∃ e1, ({} : Error).set 1213 "40001" "Deadlock" = some e1 ∧
      ({} : Error).set_outcome 1213 "40001" "Deadlock" = Outcome.returned e1) :=
  ⟨by decide,
    (C13_set_requires_five.2.1 _ 1213 "4000" "Deadlock" (by decide)).1,
    (C13_set_requires_five.2.1 _ 1213 "4000" "Deadlock" (by decide)).2,
    by decide,
    C13_set_requires_five.2.2 {} 1213 "40001" "Deadlock" (by decide)⟩

/-- C14 as stated fails: on a default-constructed reply, whose state is `DONE`,
`add_field_count(3)` returns and records 3 in `field_counts()`. -/
theorem C14_counterexample :
    ({} : Reply).state = ReplyState.DONE ∧
    ({} : Reply).call (ReplyCall.add_field_count 3) ≠ none ∧
    (({} : Reply).call (ReplyCall.add_field_count 3)).map Reply.field_counts = some [3] := by
  refine ⟨rfl, by decide, by decide⟩

/-- C14, amended: `Reply` does not check its state in `add_field_count`. On every reply
whose state is `DONE`, and for every `n`, the call returns, `n` is recorded at the end of
`field_counts()` and the state stays `DONE`. -/
theorem C14_add_field_count_in_DONE (r : Reply) (n : Nat)
    (h : r.state = ReplyState.DONE) :
    r.call (ReplyCall.add_field_count n) = some (r.add_field_count n) ∧
    (r.add_field_count n).field_counts = r.field_counts ++ [n] ∧
    (r.add_field_count n).state = ReplyState.DONE :=
  ⟨rfl, rfl, h⟩

/-- Witness for C14: the default-constructed reply is in state `DONE` and accepts
`add_field_count(3)`. -/
theorem C14_add_field_count_in_DONE_witness :
    ({} : Reply).state = ReplyState.DONE ∧
    ({} : Reply).call (ReplyCall.add_field_count 3)
      = some (({} : Reply).add_field_count 3) ∧
    (({} : Reply).add_field_count 3).field_counts = ({} : Reply).field_counts ++ [3] ∧
    (({} : Reply).add_field_count 3).state = ReplyState.DONE :=
  ⟨rfl, C14_add_field_count_in_DONE {} 3 rfl⟩

/-! ## Claims on session variables -/

/-- C15: session-variable insertion is first-write-wins. On a reply in which `k` is not set,
after `set_variable(k, v1)` and `set_variable(k, v2)` the value `get_variable(k)` is `v1`;
and `set_variable` on a key that is already present leaves the reply, and so the whole
variable mapping, unchanged. -/
theorem C15_first_write_wins :
    (∀ (r : Reply) (k v1 v2 : String), r.has_variable k = false →
      ((r.set_variable k v1).set_variable k v2).get_variable k = v1) ∧
    (∀ (r : Reply) (k v : String), r.has_variable k = true →
      r.set_variable k v = r ∧ (r.set_variable k v).m_variables = r.m_variables) := by
  constructor
  · intro r k v1 v2 h
    unfold Reply.has_variable at h
    unfold Reply.get_variable
    have hnone : r.m_variables.find? (fun kv => kv.1 == k) = none := by
      cases hf : r.m_variables.find? (fun kv => kv.1 == k) with
      | none => rfl
      | some kv =>
        rw [hf] at h
        exact absurd h (by simp)
    rw [Reply.set_variable_find, Reply.set_variable_find, hnone]
    simp
  · intro r k v h
    unfold Reply.has_variable at h
    obtain ⟨kv, hkv⟩ := Option.isSome_iff_exists.mp h
    have hset : r.set_variable k v = r := by
      unfold Reply.set_variable
      rw [hkv]
    exact ⟨hset, by rw [hset]⟩

/-- Witness for C15: on a fresh reply `autocommit` is not set, and "ON" then "OFF" leaves
"ON"; on a reply that already maps `autocommit` to "ON", setting it to "OFF" changes
nothing. -/
theorem C15_first_write_wins_witness :
    ({} : Reply).has_variable "autocommit" = false ∧
    ((({} : Reply).set_variable "autocommit" "ON").set_variable "autocommit"
      "OFF").get_variable "autocommit" = "ON" ∧
    ({ m_variables := [("autocommit", "ON")] } : Reply).has_variable "autocommit" = true ∧
    ({ m_variables := [("autocommit", "ON")] } : Reply).set_variable "autocommit" "OFF"
      = { m_variables := [("autocommit", "ON")] } :=
  ⟨by decide, C15_first_write_wins.1 {} "autocommit" "ON" "OFF" (by decide), by decide,
    (C15_first_write_wins.2 { m_variables := [("autocommit", "ON")] } "autocommit" "OFF"
      (by decide)).1⟩

/-- C16: after `clear()` and any returning sequence of mutator calls without a further
`clear()`, `get_variable(k)` is the value given by the first `set_variable(k, _)` call of
the sequence, and the empty string when the sequence has no such call; and
`set_variable(k, v)` does not change `get_variable(k1)` for any other name `k1`. -/
theorem C16_get_variable :
    (∀ (r r1 : Reply) (cs : List ReplyCall) (k : String), ReplyCall.clear ∉ cs →
      r.clear.calls cs = some r1 →
      r1.get_variable k = (cs.findSome? (ReplyCall.variable k)).getD "") ∧
    (∀ (r r1 : Reply) (cs : List ReplyCall) (k : String), ReplyCall.clear ∉ cs →
      r.clear.calls cs = some r1 → (∀ v, ReplyCall.set_variable k v ∉ cs) →
      r1.get_variable k = "") ∧
    (∀ (r : Reply) (k v k1 : String), k1 ≠ k →
      (r.set_variable k v).get_variable k1 = r.get_variable k1) := by
  have main : ∀ (r r1 : Reply) (cs : List ReplyCall) (k : String), ReplyCall.clear ∉ cs →
      r.clear.calls cs = some r1 →
      r1.get_variable k = (cs.findSome? (ReplyCall.variable k)).getD "" := by
    intro r r1 cs k hcs h
    unfold Reply.get_variable
    rw [Reply.calls_variables k cs r.clear r1 hcs h]
    cases cs.findSome? (ReplyCall.variable k) <;> simp [Reply.clear]
  refine ⟨main, fun r r1 cs k hcs h hk => ?_, fun r k v k1 hne => ?_⟩
  · rw [main r r1 cs k hcs h]
    have hnone : cs.findSome? (ReplyCall.variable k) = none := by
      rw [List.findSome?_eq_none_iff]
      intro c hc
      cases c with
      | set_variable k2 v2 =>
        by_cases hk2 : k2 = k
        · subst hk2
          exact absurd hc (hk v2)
        · simp [ReplyCall.variable, hk2]
      | _ => rfl
    rw [hnone]
    rfl
  · unfold Reply.get_variable
    rw [Reply.set_variable_find, if_neg (Ne.symm hne), Option.or_none]

/-- Witness for C16: after `clear()`, the calls `set_variable("sql_mode", "ANSI")`,
`add_rows(2)`, `set_variable("sql_mode", "TRADITIONAL")` leave `sql_mode` at "ANSI" and
`autocommit`, never set, at the empty string; setting `sql_mode` on a reply that maps
`autocommit` to "ON" keeps `autocommit`. -/
theorem C16_get_variable_witness :
    ReplyCall.clear ∉ [ReplyCall.set_variable "sql_mode" "ANSI", ReplyCall.add_rows 2,
      ReplyCall.set_variable "sql_mode" "TRADITIONAL"] ∧
    (({} : Reply).clear.calls [ReplyCall.set_variable "sql_mode" "ANSI",
      ReplyCall.add_rows 2, ReplyCall.set_variable "sql_mode" "TRADITIONAL"]
      = some { m_row_count := 2, m_variables := [("sql_mode", "ANSI")] }) ∧
    ({ m_row_count := 2, m_variables := [("sql_mode", "ANSI")] }
      : Reply).get_variable "sql_mode" = "ANSI" ∧
    ({ m_row_count := 2, m_variables := [("sql_mode", "ANSI")] }
      : Reply).get_variable "autocommit" = "" ∧
    (({ m_variables := [("autocommit", "ON")] } : Reply).set_variable "sql_mode"
      "ANSI").get_variable "autocommit"
      = ({ m_variables := [("autocommit", "ON")] } : Reply).get_variable "autocommit" :=
  ⟨by decide, by decide,
    (C16_get_variable.1 {} { m_row_count := 2, m_variables := [("sql_mode", "ANSI")] }
      [ReplyCall.set_variable "sql_mode" "ANSI", ReplyCall.add_rows 2,
        ReplyCall.set_variable "sql_mode" "TRADITIONAL"] "sql_mode" (by decide)
      (by decide)).trans (by decide),
    C16_get_variable.2.1 {} { m_row_count := 2, m_variables := [("sql_mode", "ANSI")] }
      [ReplyCall.set_variable "sql_mode" "ANSI", ReplyCall.add_rows 2,
        ReplyCall.set_variable "sql_mode" "TRADITIONAL"] "autocommit" (by decide)
      (by decide) (by intro v; simp),
    C16_get_variable.2.2 { m_variables := [("autocommit", "ON")] } "sql_mode" "ANSI"
      "autocommit" (by decide)⟩

/-! ## Flag-level helper lemmas -/

/-- The flag `1 <<< k` has bit `k` set and no other. -/
theorem testBit_flag (k i : Nat) : (1 <<< k).testBit i = decide (k = i) := by
  rw [Nat.one_shiftLeft, Nat.testBit_two_pow]

/-- Two status words are equal exactly when they agree on every bit. -/
theorem eq_iff_testBit (x y : Nat) : x = y ↔ ∀ i, x.testBit i = y.testBit i :=
  ⟨fun h _ => h ▸ rfl, Nat.eq_of_testBit_eq⟩

/-- Masking with three flags and comparing with the first two: the first two bits are set
and the third is clear. -/
theorem land_flags3 (s a b c : Nat) (hac : a ≠ c) (hbc : b ≠ c) :
    s &&& (1 <<< a ||| 1 <<< b ||| 1 <<< c) = (1 <<< a ||| 1 <<< b) ↔
      (s.testBit a = true ∧ s.testBit b = true ∧ s.testBit c = false) := by
  rw [eq_iff_testBit]
  simp only [Nat.testBit_and, Nat.testBit_or, testBit_flag]
  constructor
  · intro h
    have ha := h a
    have hb := h b
    have hc := h c
    simp only [decide_True, Bool.true_or, Bool.or_true, Bool.and_true] at ha hb hc
    simp only [hac, hbc, decide_False, Bool.or_false] at hc
    exact ⟨ha, hb, hc⟩
  · rintro ⟨ha, hb, hc⟩ i
    by_cases hia : a = i
    · subst hia
      simp [ha]
    · by_cases hib : b = i
      · subst hib
        simp [hb]
      · by_cases hic : c = i
        · subst hic
          simp [hc, hia, hib]
        · simp [hia, hib, hic]

/-- Masking with two flags and comparing with the first: the first bit is set and the
second is clear. -/
theorem land_flags2_one (s a c : Nat) (hac : a ≠ c) :
    s &&& (1 <<< a ||| 1 <<< c) = 1 <<< a ↔ (s.testBit a = true ∧ s.testBit c = false) := by
  rw [eq_iff_testBit]
  simp only [Nat.testBit_and, Nat.testBit_or, testBit_flag]
  constructor
  · intro h
    have ha := h a
    have hc := h c
    simp only [decide_True, Bool.true_or, Bool.or_true, Bool.and_true] at ha hc
    simp only [hac, decide_False] at hc
    exact ⟨ha, hc⟩
  · rintro ⟨ha, hc⟩ i
    by_cases hia : a = i
    · subst hia
      simp [ha]
    · by_cases hic : c = i
      · subst hic
        simp [hc, hia]
      · simp [hia, hic]

/-- Masking with two flags and comparing with both: both bits are set. -/
theorem land_flags2_both (s a b : Nat) :
    s &&& (1 <<< a ||| 1 <<< b) = (1 <<< a ||| 1 <<< b) ↔
      (s.testBit a = true ∧ s.testBit b = true) := by
  rw [eq_iff_testBit]
  simp only [Nat.testBit_and, Nat.testBit_or, testBit_flag]
  constructor
  · intro h
    have ha := h a
    have hb := h b
    simp only [decide_True, Bool.true_or, Bool.or_true, Bool.and_true] at ha hb
    exact ⟨ha, hb⟩
  · rintro ⟨ha, hb⟩ i
    by_cases hia : a = i
    · subst hia
      simp [ha]
    · by_cases hib : b = i
      · subst hib
        simp [hb]
      · simp [hia, hib]

/-- Masking with four flags and testing for a non-zero result: one of the four bits is
set. -/
theorem land_flags4_ne_zero (s a b c d : Nat) :
    ((s &&& (1 <<< a ||| 1 <<< b ||| 1 <<< c ||| 1 <<< d)) != 0) = true ↔
      (s.testBit a = true ∨ s.testBit b = true ∨ s.testBit c = true ∨ s.testBit d = true) := by
  rw [bne_iff_ne]
  constructor
  · intro h
    obtain ⟨i, hi⟩ := Nat.ne_zero_implies_bit_true h
    simp only [Nat.testBit_and, Nat.testBit_or, testBit_flag, Bool.and_eq_true,
      Bool.or_eq_true, decide_eq_true_eq] at hi
    obtain ⟨hs, hm⟩ := hi
    rcases hm with ((h1 | h1) | h1) | h1 <;> subst h1 <;> simp [hs]
  · intro h hz
    have hall : ∀ i, (s &&& (1 <<< a ||| 1 <<< b ||| 1 <<< c ||| 1 <<< d)).testBit i = false := by
      intro i
      rw [hz, Nat.zero_testBit]
    simp only [Nat.testBit_and, Nat.testBit_or, testBit_flag] at hall
    rcases h with h1 | h1 | h1 | h1
    · have := hall a
      simp [h1] at this
    · have := hall b
      simp [h1] at this
    · have := hall c
      simp [h1] at this
    · have := hall d
      simp [h1] at this

/-- Toggling the flag `1 <<< k` in a status word changes no bit other than `k`. -/
theorem testBit_xor_flag (s k i : Nat) (h : k ≠ i) :
    (s ^^^ (1 <<< k)).testBit i = s.testBit i := by
  rw [Nat.testBit_xor, testBit_flag]
  simp [h]

/-! ## Claims on the status predicates, continued -/

/-- C17: for each role bit R of SLAVE (bit 4), RELAY (bit 11) and JOINED (bit 20), the
predicate `status_is_slave`, `status_is_relay`, `status_is_joined` holds exactly when
`s & (RUNNING|R|MAINT)` equals `RUNNING|R`, that is when RUNNING (bit 0) and R are set and
MAINT (bit 1) is clear; status words that agree on these three bits get the same answer. -/
theorem C17_role_predicates :
    (∀ s : Nat, (status_is_slave s = true ↔
        s &&& (SERVER_RUNNING ||| SERVER_SLAVE ||| SERVER_MAINT)
          = (SERVER_RUNNING ||| SERVER_SLAVE)) ∧
      (status_is_relay s = true ↔
        s &&& (SERVER_RUNNING ||| SERVER_RELAY ||| SERVER_MAINT)
          = (SERVER_RUNNING ||| SERVER_RELAY)) ∧
      (status_is_joined s = true ↔
        s &&& (SERVER_RUNNING ||| SERVER_JOINED ||| SERVER_MAINT)
          = (SERVER_RUNNING ||| SERVER_JOINED))) ∧
    (∀ s : Nat, (status_is_slave s = true ↔
        (s.testBit 0 = true ∧ s.testBit 4 = true ∧ s.testBit 1 = false)) ∧
      (status_is_relay s = true ↔
        (s.testBit 0 = true ∧ s.testBit 11 = true ∧ s.testBit 1 = false)) ∧
      (status_is_joined s = true ↔
        (s.testBit 0 = true ∧ s.testBit 20 = true ∧ s.testBit 1 = false))) ∧
    (∀ s t : Nat, s.testBit 0 = t.testBit 0 → s.testBit 1 = t.testBit 1 →
      (s.testBit 4 = t.testBit 4 → status_is_slave s = status_is_slave t) ∧
      (s.testBit 11 = t.testBit 11 → status_is_relay s = status_is_relay t) ∧
      (s.testBit 20 = t.testBit 20 → status_is_joined s = status_is_joined t)) := by
  have hslave : ∀ s : Nat, status_is_slave s = true ↔
      (s.testBit 0 = true ∧ s.testBit 4 = true ∧ s.testBit 1 = false) := by
    intro s
    unfold status_is_slave SERVER_RUNNING SERVER_SLAVE SERVER_MAINT
    rw [beq_iff_eq]
    exact land_flags3 s 0 4 1 (by decide) (by decide)
  have hrelay : ∀ s : Nat, status_is_relay s = true ↔
      (s.testBit 0 = true ∧ s.testBit 11 = true ∧ s.testBit 1 = false) := by
    intro s
    unfold status_is_relay SERVER_RUNNING SERVER_RELAY SERVER_MAINT
    rw [beq_iff_eq]
    exact land_flags3 s 0 11 1 (by decide) (by decide)
  have hjoined : ∀ s : Nat, status_is_joined s = true ↔
      (s.testBit 0 = true ∧ s.testBit 20 = true ∧ s.testBit 1 = false) := by
    intro s
    unfold status_is_joined SERVER_RUNNING SERVER_JOINED SERVER_MAINT
    rw [beq_iff_eq]
    exact land_flags3 s 0 20 1 (by decide) (by decide)
  refine ⟨fun s => ⟨?_, ?_, ?_⟩, fun s => ⟨hslave s, hrelay s, hjoined s⟩,
    fun s t h0 h1 => ⟨fun h => ?_, fun h => ?_, fun h => ?_⟩⟩
  · unfold status_is_slave
    exact beq_iff_eq
  · unfold status_is_relay
    exact beq_iff_eq
  · unfold status_is_joined
    exact beq_iff_eq
  · rw [Bool.eq_iff_iff, hslave s, hslave t, h0, h1, h]
  · rw [Bool.eq_iff_iff, hrelay s, hrelay t, h0, h1, h]
  · rw [Bool.eq_iff_iff, hjoined s, hjoined t, h0, h1, h]

/-- Witness for C17: a running slave (17), relay (2049) and joined node (1048577) keep their
role when DRAINING and MASTER are set on top. -/
theorem C17_role_predicates_witness :
    status_is_slave (17 + 40) = status_is_slave 17 ∧
    status_is_relay (2049 + 40) = status_is_relay 2049 ∧
    status_is_joined (1048577 + 40) = status_is_joined 1048577 ∧
    status_is_slave 17 = true ∧ status_is_relay 2049 = true ∧
    status_is_joined 1048577 = true :=
  ⟨(C17_role_predicates.2.2 (17 + 40) 17 (by decide) (by decide)).1 (by decide),
    (C17_role_predicates.2.2 (2049 + 40) 2049 (by decide) (by decide)).2.1 (by decide),
    (C17_role_predicates.2.2 (1048577 + 40) 1048577 (by decide) (by decide)).2.2
      (by decide),
    by decide, by decide, by decide⟩

/-- C18: `status_is_usable s` holds exactly when `s & (RUNNING|MAINT)` equals `RUNNING`,
that is when RUNNING (bit 0) is set and MAINT (bit 1) is clear; setting or clearing the
DRAINING bit does not change it. -/
theorem C18_status_is_usable_iff :
    (∀ s : Nat, status_is_usable s = true ↔
      s &&& (SERVER_RUNNING ||| SERVER_MAINT) = SERVER_RUNNING) ∧
    (∀ s : Nat, status_is_usable s = true ↔ (s.testBit 0 = true ∧ s.testBit 1 = false)) ∧
    (∀ s : Nat, status_is_usable (s ^^^ SERVER_DRAINING) = status_is_usable s) ∧
    (∀ s : Nat, status_is_usable (s ||| SERVER_DRAINING) = status_is_usable s) := by
  have key : ∀ s : Nat, status_is_usable s = true ↔
      (s.testBit 0 = true ∧ s.testBit 1 = false) := by
    intro s
    unfold status_is_usable SERVER_RUNNING SERVER_MAINT
    rw [beq_iff_eq]
    exact land_flags2_one s 0 1 (by decide)
  refine ⟨fun s => ?_, key, fun s => ?_, fun s => ?_⟩
  · unfold status_is_usable
    exact beq_iff_eq
  · rw [Bool.eq_iff_iff, key, key, SERVER_DRAINING,
      testBit_xor_flag s 5 0 (by decide), testBit_xor_flag s 5 1 (by decide)]
  · rw [Bool.eq_iff_iff, key, key, SERVER_DRAINING, Nat.testBit_or, Nat.testBit_or,
      testBit_flag, testBit_flag]
    simp

/-- C19: `status_is_slave_of_ext_master s` holds exactly when RUNNING (bit 0) and
SLAVE_OF_EXT_MASTER (bit 10) are both set; so it is true for every such `s` that is in
maintenance, whereas `status_is_master` and `status_is_slave` are false for every `s` in
maintenance. -/
theorem C19_slave_of_ext_master :
    (∀ s : Nat, status_is_slave_of_ext_master s = true ↔
      (s.testBit 0 = true ∧ s.testBit 10 = true)) ∧
    (∀ s : Nat, s.testBit 0 = true → s.testBit 10 = true → status_is_in_maint s = true →
      status_is_slave_of_ext_master s = true) ∧
    (∀ s : Nat, status_is_in_maint s = true →
      status_is_master s = false ∧ status_is_slave s = false) := by
  have key : ∀ s : Nat, status_is_slave_of_ext_master s = true ↔
      (s.testBit 0 = true ∧ s.testBit 10 = true) := by
    intro s
    unfold status_is_slave_of_ext_master SERVER_RUNNING SERVER_SLAVE_OF_EXT_MASTER
    rw [beq_iff_eq]
    exact land_flags2_both s 0 10
  refine ⟨key, fun s h0 h10 _ => (key s).mpr ⟨h0, h10⟩, fun s hm => ?_⟩
  rw [status_is_in_maint, SERVER_MAINT, land_one_shiftLeft_ne_zero] at hm
  constructor
  · rw [← Bool.not_eq_true]
    intro h
    unfold status_is_master SERVER_RUNNING SERVER_MASTER SERVER_MAINT at h
    rw [beq_iff_eq, land_flags3 s 0 3 1 (by decide) (by decide), hm] at h
    exact absurd h.2.2 (by decide)
  · rw [← Bool.not_eq_true]
    intro h
    unfold status_is_slave SERVER_RUNNING SERVER_SLAVE SERVER_MAINT at h
    rw [beq_iff_eq, land_flags3 s 0 4 1 (by decide) (by decide), hm] at h
    exact absurd h.2.2 (by decide)

/-- Witness for C19: status 1027 (RUNNING, MAINT, SLAVE_OF_EXT_MASTER) is a slave of an
external master; status 27 (RUNNING, MAINT, MASTER, SLAVE) is neither master nor slave. -/
theorem C19_slave_of_ext_master_witness :
    status_is_in_maint 1027 = true ∧ status_is_slave_of_ext_master 1027 = true ∧
    status_is_in_maint 27 = true ∧ status_is_master 27 = false ∧
    status_is_slave 27 = false :=
  ⟨by decide, C19_slave_of_ext_master.2.1 1027 (by decide) (by decide) (by decide),
    by decide, (C19_slave_of_ext_master.2.2 27 (by decide)).1,
    (C19_slave_of_ext_master.2.2 27 (by decide)).2⟩

/-- C20: `Target::is_in_cluster()` is true exactly when at least one of the MASTER (bit 3),
SLAVE (bit 4), RELAY (bit 11) or JOINED (bit 20) bits of the status is set; setting or
clearing RUNNING or MAINT does not change it. -/
theorem C20_is_in_cluster_iff :
    (∀ t : Target, t.is_in_cluster = true ↔
      (t.status.testBit 3 = true ∨ t.status.testBit 4 = true ∨
        t.status.testBit 11 = true ∨ t.status.testBit 20 = true)) ∧
    (∀ t : Target,
      (Target.mk (t.status ^^^ SERVER_RUNNING)).is_in_cluster = t.is_in_cluster ∧
      (Target.mk (t.status ^^^ SERVER_MAINT)).is_in_cluster = t.is_in_cluster) := by
  have key : ∀ t : Target, t.is_in_cluster = true ↔
      (t.status.testBit 3 = true ∨ t.status.testBit 4 = true ∨
        t.status.testBit 11 = true ∨ t.status.testBit 20 = true) := by
    intro t
    unfold Target.is_in_cluster SERVER_MASTER SERVER_SLAVE SERVER_RELAY SERVER_JOINED
    exact land_flags4_ne_zero t.status 3 4 11 20
  refine ⟨key, fun t => ⟨?_, ?_⟩⟩
  · rw [Bool.eq_iff_iff, key, key, SERVER_RUNNING]
    simp only [testBit_xor_flag t.status 0 3 (by decide),
      testBit_xor_flag t.status 0 4 (by decide), testBit_xor_flag t.status 0 11 (by decide),
      testBit_xor_flag t.status 0 20 (by decide)]
  · rw [Bool.eq_iff_iff, key, key, SERVER_MAINT]
    simp only [testBit_xor_flag t.status 1 3 (by decide),
      testBit_xor_flag t.status 1 4 (by decide), testBit_xor_flag t.status 1 11 (by decide),
      testBit_xor_flag t.status 1 20 (by decide)]

/-! ## Claims on the status predicates and flags, third part -/

/-- C21: `status_is_down s` holds exactly when the RUNNING bit (bit 0) is clear, and it is
the negation of `status_is_running s` for every `s`. -/
theorem C21_status_is_down_iff :
    (∀ s : Nat, status_is_down s = true ↔ s.testBit 0 = false) ∧
    (∀ s : Nat, status_is_down s = !status_is_running s) := by
  have hneg : ∀ s : Nat, status_is_down s = !status_is_running s := by
    intro s
    unfold status_is_down status_is_running
    rw [bne, Bool.not_not]
  refine ⟨fun s => ?_, hneg⟩
  rw [hneg, status_is_running, SERVER_RUNNING, land_one_shiftLeft_ne_zero]
  cases s.testBit 0 <;> decide

/-- C22 as stated fails: status 1027 has MAINT set and is a slave of an external master;
status 64 has RUNNING clear and reports exhausted disk space; a target with status 8 has
RUNNING clear and is in a cluster. -/
theorem C22_counterexample :
    (status_is_in_maint 1027 = true ∧ status_is_slave_of_ext_master 1027 = true) ∧
    (status_is_running 64 = false ∧ status_is_disk_space_exhausted 64 = true) ∧
    (status_is_running 8 = false ∧ (Target.mk 8).is_in_cluster = true) := by
  decide

/-- In maintenance or not running, the six availability and role predicates are false, and
a server that is not running is not a slave of an external master. -/
theorem status_false_of_maint_or_down (s : Nat)
    (h : status_is_in_maint s = true ∨ status_is_running s = false) :
    status_is_connectable s = false ∧ status_is_usable s = false ∧
    status_is_master s = false ∧ status_is_slave s = false ∧
    status_is_relay s = false ∧ status_is_joined s = false ∧
    (status_is_running s = false → status_is_slave_of_ext_master s = false) := by
  rw [status_is_in_maint, SERVER_MAINT, land_one_shiftLeft_ne_zero, status_is_running,
    SERVER_RUNNING, land_one_shiftLeft_ne_zero] at h
  have hbits : ¬ (s.testBit 0 = true ∧ s.testBit 1 = false) := by
    rintro ⟨h0, h1⟩
    rcases h with h | h
    · rw [h1] at h
      exact absurd h (by decide)
    · rw [h0] at h
      exact absurd h (by decide)
  have hrole : ∀ k : Nat, k ≠ 1 →
      ((s &&& (1 <<< 0 ||| 1 <<< k ||| 1 <<< 1)) == (1 <<< 0 ||| 1 <<< k)) = false := by
    intro k hk
    rw [← Bool.not_eq_true, beq_iff_eq, land_flags3 s 0 k 1 (by decide) hk]
    exact fun hc => hbits ⟨hc.1, hc.2.2⟩
  refine ⟨?_, ?_, hrole 3 (by decide), hrole 4 (by decide), hrole 11 (by decide),
    hrole 20 (by decide), fun hr => ?_⟩
  · rw [← Bool.not_eq_true]
    intro hc
    unfold status_is_connectable SERVER_RUNNING SERVER_MAINT SERVER_DRAINING at hc
    rw [beq_iff_eq, eq_iff_testBit] at hc
    have h0 := hc 0
    have h1 := hc 1
    simp only [Nat.testBit_and, Nat.testBit_or, testBit_flag] at h0 h1
    exact hbits ⟨by simpa using h0, by simpa using h1⟩
  · rw [← Bool.not_eq_true]
    intro hc
    unfold status_is_usable SERVER_RUNNING SERVER_MAINT at hc
    rw [beq_iff_eq, land_flags2_one s 0 1 (by decide)] at hc
    exact hbits hc
  · rw [status_is_running, SERVER_RUNNING, land_one_shiftLeft_ne_zero] at hr
    rw [← Bool.not_eq_true]
    intro hc
    unfold status_is_slave_of_ext_master SERVER_RUNNING SERVER_SLAVE_OF_EXT_MASTER at hc
    rw [beq_iff_eq, land_flags2_both s 0 10, hr] at hc
    exact absurd hc.1 (by decide)

/-- The disk-space predicate reads bit 6 and nothing else. -/
theorem status_is_disk_space_exhausted_eq (s : Nat) :
    status_is_disk_space_exhausted s = s.testBit 6 := by
  rw [status_is_disk_space_exhausted, SERVER_DISK_SPACE_EXHAUSTED,
    land_one_shiftLeft_ne_zero]

/-- A target is in a cluster exactly when one of the bits 3, 4, 11, 20 of its status is
set. -/
theorem Target.is_in_cluster_bits (t : Target) :
    t.is_in_cluster = true ↔
      (t.status.testBit 3 = true ∨ t.status.testBit 4 = true ∨
        t.status.testBit 11 = true ∨ t.status.testBit 20 = true) := by
  unfold Target.is_in_cluster SERVER_MASTER SERVER_SLAVE SERVER_RELAY SERVER_JOINED
  exact land_flags4_ne_zero t.status 3 4 11 20

/-- C22, amended: for every status word in which MAINT is set or RUNNING is clear,
`status_is_connectable`, `status_is_usable`, `status_is_master`, `status_is_slave`,
`status_is_relay` and `status_is_joined` are false, and `status_is_slave_of_ext_master` is
false when RUNNING is clear; setting or clearing MAINT does not change
`status_is_slave_of_ext_master`. `status_is_disk_space_exhausted` is bit 6 of the status
and `Target::is_in_cluster` is true exactly when one of the bits 3, 4, 11, 20 is set:
both test only their own bits, and setting or clearing RUNNING or MAINT changes neither. -/
theorem C22_requires_running_not_maint :
    (∀ s : Nat, (status_is_in_maint s = true ∨ status_is_running s = false) →
      status_is_connectable s = false ∧ status_is_usable s = false ∧
      status_is_master s = false ∧ status_is_slave s = false ∧
      status_is_relay s = false ∧ status_is_joined s = false ∧
      (status_is_running s = false → status_is_slave_of_ext_master s = false)) ∧
    (∀ s : Nat, status_is_slave_of_ext_master (s ^^^ SERVER_MAINT)
      = status_is_slave_of_ext_master s) ∧
    (∀ s : Nat, status_is_disk_space_exhausted s = s.testBit 6) ∧
    (∀ s : Nat,
      status_is_disk_space_exhausted (s ^^^ SERVER_RUNNING)
        = status_is_disk_space_exhausted s ∧
      status_is_disk_space_exhausted (s ^^^ SERVER_MAINT)
        = status_is_disk_space_exhausted s) ∧
    (∀ t : Target, t.is_in_cluster = true ↔
      (t.status.testBit 3 = true ∨ t.status.testBit 4 = true ∨
        t.status.testBit 11 = true ∨ t.status.testBit 20 = true)) ∧
    (∀ t : Target,
      (Target.mk (t.status ^^^ SERVER_RUNNING)).is_in_cluster = t.is_in_cluster ∧
      (Target.mk (t.status ^^^ SERVER_MAINT)).is_in_cluster = t.is_in_cluster) := by
  refine ⟨status_false_of_maint_or_down, fun s => ?_, status_is_disk_space_exhausted_eq,
    fun s => ⟨?_, ?_⟩, Target.is_in_cluster_bits, fun t => ⟨?_, ?_⟩⟩
  · have key : ∀ x : Nat, status_is_slave_of_ext_master x = true ↔
        (x.testBit 0 = true ∧ x.testBit 10 = true) := by
      intro x
      unfold status_is_slave_of_ext_master SERVER_RUNNING SERVER_SLAVE_OF_EXT_MASTER
      rw [beq_iff_eq]
      exact land_flags2_both x 0 10
    rw [Bool.eq_iff_iff, key, key, SERVER_MAINT, testBit_xor_flag s 1 0 (by decide),
      testBit_xor_flag s 1 10 (by decide)]
  · rw [status_is_disk_space_exhausted_eq, status_is_disk_space_exhausted_eq,
      SERVER_RUNNING, testBit_xor_flag s 0 6 (by decide)]
  · rw [status_is_disk_space_exhausted_eq, status_is_disk_space_exhausted_eq,
      SERVER_MAINT, testBit_xor_flag s 1 6 (by decide)]
  · rw [Bool.eq_iff_iff, Target.is_in_cluster_bits, Target.is_in_cluster_bits,
      SERVER_RUNNING]
    simp only [testBit_xor_flag t.status 0 3 (by decide),
      testBit_xor_flag t.status 0 4 (by decide), testBit_xor_flag t.status 0 11 (by decide),
      testBit_xor_flag t.status 0 20 (by decide)]
  · rw [Bool.eq_iff_iff, Target.is_in_cluster_bits, Target.is_in_cluster_bits,
      SERVER_MAINT]
    simp only [testBit_xor_flag t.status 1 3 (by decide),
      testBit_xor_flag t.status 1 4 (by decide), testBit_xor_flag t.status 1 11 (by decide),
      testBit_xor_flag t.status 1 20 (by decide)]

/-- Witness for C22: status 1051 (RUNNING, MAINT, MASTER, SLAVE, SLAVE_OF_EXT_MASTER) is in
maintenance, and status 24 (MASTER and SLAVE without RUNNING) is not running. -/
theorem C22_requires_running_not_maint_witness :
    status_is_in_maint 1051 = true ∧ status_is_master 1051 = false ∧
    status_is_slave 1051 = false ∧ status_is_usable 1051 = false ∧
    status_is_running 24 = false ∧ status_is_master 24 = false ∧
    status_is_slave_of_ext_master 24 = false :=
  ⟨by decide, (C22_requires_running_not_maint.1 1051 (Or.inl (by decide))).2.2.1,
    (C22_requires_running_not_maint.1 1051 (Or.inl (by decide))).2.2.2.1,
    (C22_requires_running_not_maint.1 1051 (Or.inl (by decide))).2.1,
    by decide, (C22_requires_running_not_maint.1 24 (Or.inr (by decide))).2.2.1,
    (C22_requires_running_not_maint.1 24 (Or.inr (by decide))).2.2.2.2.2.2 (by decide)⟩

/-- The AND with a flag distributes over setting another flag. -/
theorem land_lor_flag (s a b : Nat) : (s ||| a) &&& b = (s &&& b) ||| (a &&& b) := by
  apply Nat.eq_of_testBit_eq
  intro i
  simp only [Nat.testBit_and, Nat.testBit_or]
  cases s.testBit i <;> cases a.testBit i <;> cases b.testBit i <;> rfl

/-- The AND of a word with two masks in a row is the AND with the AND of the masks. -/
theorem land_land_flag (s a b : Nat) : (s &&& a) &&& b = s &&& (a &&& b) := by
  apply Nat.eq_of_testBit_eq
  intro i
  simp only [Nat.testBit_and]
  cases s.testBit i <;> cases a.testBit i <;> cases b.testBit i <;> rfl

/-- C23: the eleven status flags are the single bits at positions 0, 1, 2, 3, 4, 5, 6, 10,
11, 20 and 21; the bitwise AND of two different flags is 0; and setting a flag (`s | a`) or
clearing it (`s & ~a` on 64 bits) leaves `s & b` as it is for every other flag `b`. -/
theorem C23_flags_orthogonal :
    (statusFlags = [0, 1, 2, 3, 4, 5, 6, 10, 11, 20, 21].map (fun k => 2 ^ k)) ∧
    (∀ a ∈ statusFlags, ∀ b ∈ statusFlags, a ≠ b → a &&& b = 0) ∧
    (∀ a ∈ statusFlags, ∀ b ∈ statusFlags, a ≠ b → ∀ s : Nat,
      (s ||| a) &&& b = s &&& b ∧ (s &&& (2 ^ 64 - 1 - a)) &&& b = s &&& b) := by
  have hand : ∀ a ∈ statusFlags, ∀ b ∈ statusFlags, a ≠ b → a &&& b = 0 := by decide
  have hclear : ∀ a ∈ statusFlags, ∀ b ∈ statusFlags, a ≠ b →
      (2 ^ 64 - 1 - a) &&& b = b := by decide
  refine ⟨by decide, hand, fun a ha b hb hab s => ⟨?_, ?_⟩⟩
  · rw [land_lor_flag, hand a ha b hb hab, Nat.or_zero]
  · rw [land_land_flag, hclear a ha b hb hab]

/-- Witness for C23: MASTER (8) and SLAVE (16) are different flags; setting or clearing
MASTER in status 17 (RUNNING and SLAVE) leaves the SLAVE bit as it is. -/
theorem C23_flags_orthogonal_witness :
    SERVER_MASTER &&& SERVER_SLAVE = 0 ∧
    (17 ||| SERVER_MASTER) &&& SERVER_SLAVE = 17 &&& SERVER_SLAVE ∧
    (17 &&& (2 ^ 64 - 1 - SERVER_MASTER)) &&& SERVER_SLAVE = 17 &&& SERVER_SLAVE :=
  ⟨C23_flags_orthogonal.2.1 SERVER_MASTER (by decide) SERVER_SLAVE (by decide) (by decide),
    (C23_flags_orthogonal.2.2 SERVER_MASTER (by decide) SERVER_SLAVE (by decide)
      (by decide) 17).1,
    (C23_flags_orthogonal.2.2 SERVER_MASTER (by decide) SERVER_SLAVE (by decide)
      (by decide) 17).2⟩

/-! ## Claims on `Error` -/

/-- C24: `bool(e)` is false exactly when `code()` is 0 and both `sql_state()` and
`message()` are empty; the default-constructed error is falsy; and after a `set` that
returns, with any code (so with every non-zero code), the error is truthy. -/
theorem C24_error_bool :
    (∀ e : Error, e.toBool = false ↔ (e.code = 0 ∧ e.sql_state = "" ∧ e.message = "")) ∧
    (({} : Error).toBool = false) ∧
    (∀ (e : Error) (c : Nat) (s m : String), s.length = 5 →
      ∃ e1, e.set c s m = some e1 ∧ e1.toBool = true) := by
  refine ⟨fun e => ?_, by decide, fun e c s m h => ?_⟩
  · simp [Error.toBool, Error.code, Error.sql_state, Error.message, and_assoc]
  · refine ⟨{ m_code := c % 2 ^ 16, m_sql_state := s, m_message := m },
      by simp [Error.set, h], ?_⟩
    have hs : s ≠ "" := by
      intro hs
      rw [hs] at h
      exact absurd h (by decide)
    simp [Error.toBool, hs]

/-- Witness for C24: after `set(1045, "28000", "Access denied")` on a default error the
error is truthy. -/
theorem C24_error_bool_witness :
    "28000".length = 5 ∧
    ∃ e1, ({} : Error).set 1045 "28000" "Access denied" = some e1 ∧ e1.toBool = true :=
  ⟨by decide, C24_error_bool.2.2 {} 1045 "28000" "Access denied" (by decide)⟩

/-- C25: `is_rollback()` is true exactly when the SQL state begins with the two characters
"40"; it is false for a default-constructed error and after a `set` with SQL state "28000",
and true after a `set` with SQL state "40001". -/
theorem C25_is_rollback_iff :
    (∀ e : Error, e.is_rollback = true ↔
      ∃ rest : List Char, e.sql_state.data = "40".data ++ rest) ∧
    (({} : Error).is_rollback = false) ∧
    ((({} : Error).set 1045 "28000" "Access denied").map Error.is_rollback = some false) ∧
    ((({} : Error).set 1213 "40001" "Deadlock").map Error.is_rollback = some true) := by
  refine ⟨fun e => ?_, by decide, by decide, by decide⟩
  unfold Error.is_rollback Error.sql_state
  rw [beq_iff_eq]
  have hlen : "40".data.length = 2 := by decide
  constructor
  · intro h
    refine ⟨e.m_sql_state.data.drop 2, ?_⟩
    rw [← h, List.take_append_drop]
  · rintro ⟨rest, h⟩
    rw [h, ← hlen, List.take_left]

/-! ## Claims on `Target::Stats` and `Endpoint` -/

/-- The counters stay ordered under every sequence of calls: when the live count is between
0 and the high-water mark, and that is at most `k`, the same holds afterwards with `k` plus
the number of calls. -/
theorem Stats.calls_invariant (cs : List StatsCall) :
    ∀ (s : Stats) (k : Int), 0 ≤ s.n_current → s.n_current ≤ s.n_max_connections →
      s.n_max_connections ≤ k →
      0 ≤ (s.calls cs).n_current ∧ (s.calls cs).n_current ≤ (s.calls cs).n_max_connections ∧
        (s.calls cs).n_max_connections ≤ k + cs.length := by
  induction cs with
  | nil =>
    intro s k h0 h1 h2
    simp only [Stats.calls, List.foldl_nil, List.length_nil, Nat.cast_zero, add_zero]
    exact ⟨h0, h1, h2⟩
  | cons c cs ih =>
    intro s k h0 h1 h2
    have hstep : 0 ≤ (s.call c).n_current ∧
        (s.call c).n_current ≤ (s.call c).n_max_connections ∧
        (s.call c).n_max_connections ≤ k + 1 := by
      cases c
      · simp only [Stats.call, Stats.add_connection]
        refine ⟨by omega, le_max_right _ _, max_le (by omega) (by omega)⟩
      · simp only [Stats.call, Stats.remove_connection]
        split <;> refine ⟨by omega, by omega, by omega⟩
    have := ih (s.call c) (k + 1) hstep.1 hstep.2.1 hstep.2.2
    simp only [Stats.calls, List.foldl_cons, List.length_cons, Nat.cast_add, Nat.cast_one]
      at this ⊢
    refine ⟨this.1, this.2.1, ?_⟩
    have h3 := this.2.2
    omega

/-- C26: starting from default counters, after every finite sequence of `add_connection`
and `remove_connection` calls `n_current` is at least 0 and at most `n_max_connections`,
which is at most the number of calls; a `remove_connection` with no live connection leaves
`n_current` at 0. -/
theorem C26_stats_invariant :
    (∀ cs : List StatsCall, 0 ≤ (({} : Stats).calls cs).n_current ∧
      (({} : Stats).calls cs).n_current ≤ (({} : Stats).calls cs).n_max_connections ∧
      (({} : Stats).calls cs).n_max_connections ≤ cs.length) ∧
    (({} : Stats).remove_connection.n_current = 0) ∧
    (∀ s : Stats, s.n_current = 0 → s.remove_connection.n_current = 0) := by
  refine ⟨fun cs => ?_, by decide, fun s h => ?_⟩
  · have := Stats.calls_invariant cs {} 0 (le_refl _) (le_refl _) (le_refl _)
    simpa using this
  · simp [Stats.remove_connection, h]

/-- Witness for C26: on counters with four connections ever made and none live,
`remove_connection` leaves the live count at 0. -/
theorem C26_stats_invariant_witness :
    ({ n_connections := 4, n_max_connections := 2 } : Stats).n_current = 0 ∧
    ({ n_connections := 4, n_max_connections := 2 } : Stats).remove_connection.n_current
      = 0 :=
  ⟨rfl, C26_stats_invariant.2.2 { n_connections := 4, n_max_connections := 2 } rfl⟩

/-- C29: the user-data slot of an endpoint is a plain store. A freshly constructed endpoint
returns the null pointer; `get_userdata()` after `set_userdata(d)` returns `d`; and after
several `set_userdata` calls it returns the argument of the last one. -/
theorem C29_userdata_store :
    (({} : Endpoint).get_userdata = nullptr) ∧
    (∀ (e : Endpoint) (d : Nat), (e.set_userdata d).get_userdata = d) ∧
    (∀ (e : Endpoint) (ds : List Nat) (d : Nat),
      ((ds ++ [d]).foldl Endpoint.set_userdata e).get_userdata = d) := by
  refine ⟨rfl, fun _ _ => rfl, fun e ds d => ?_⟩
  rw [List.foldl_append]
  rfl

/-! ## Claims on the gateway entry point -/

/-- The configuration file resolution never leaves `main` from the place of a completed
shutdown. -/
theorem resolve_cnf_file_error (env : MainEnv) (cnf_file : Option String) (e : MainExit)
    (h : resolve_cnf_file env cnf_file = Except.error e) :
    e = MainExit.home_not_readable ∨ e = MainExit.home_cnf_not_readable := by
  unfold resolve_cnf_file at h
  cases hh : env.getenv_MAXSCALE_HOME with
  | none =>
    rw [hh] at h
    cases cnf_file with
    | none =>
      simp only at h
      split at h <;> simp at h
    | some f => simp at h
  | some home =>
    rw [hh] at h
    simp only at h
    by_cases h1 : env.access home ≠ 0
    · rw [if_pos h1] at h
      simp only [Except.error.injEq] at h
      exact Or.inl h.symm
    · rw [if_neg h1] at h
      cases cnf_file with
      | some f => simp at h
      | none =>
        simp only at h
        by_cases h2 : env.access (home ++ "/etc/MaxScale.cnf") ≠ 0
        · rw [if_pos h2] at h
          simp only [Except.error.injEq] at h
          exact Or.inr h.symm
        · rw [if_neg h2] at h
          simp at h

/-- On every path through `main` the local `rc` holds the documented return value when
control reaches `return_main`: 0 after a completed shutdown, 1 on every failure path. -/
theorem main_body_rc (env : MainEnv) :
    (main_body env).rc = main_documented_return (main_body env) := by
  unfold main_body main_documented_return
  split
  · rfl
  · split
    · rfl
    · split
      · rfl
      · split
        · rfl
        · split
          · rfl
          · split
            · rfl
            · simp only
              split
              · rename_i e he
                rcases resolve_cnf_file_error env _ e he with h | h <;> rw [h] <;> rfl
              · rfl
              · split
                · rfl
                · split
                  · rfl
                  · split <;> rfl

/-- C28, evaluated on the code: `main` returns 0 on every path. Started as `maxscale -c`,
with `-c` as the last argument, `main` reaches `return_main` from the missing-file error
with `rc == 1`, where the documentation asks for the return value 1, and returns 0. On
every path `rc` holds the documented value at `return_main`, and the value returned is 0. -/
theorem C28_main_returns_zero :
    ((main (MainEnv.allSucceed ["maxscale", "-c"])).state.exit
      = MainExit.c_option_without_file) ∧
    ((main (MainEnv.allSucceed ["maxscale", "-c"])).state.rc = 1) ∧
    (main_documented_return (main (MainEnv.allSucceed ["maxscale", "-c"])).state = 1) ∧
    ((main (MainEnv.allSucceed ["maxscale", "-c"])).ret = 0) ∧
    (∀ env : MainEnv, (main env).ret = 0) ∧
    (∀ env : MainEnv, (main env).state.rc = main_documented_return (main env).state) := by
  refine ⟨by decide, by decide, by decide, rfl, fun _ => rfl, fun env => main_body_rc env⟩

/-- C30, evaluated on the code: the registration loop hands `*exitfunp`, the first element
of the array, to `atexit` in each of its three iterations. When every `atexit` call
succeeds the registered functions are `skygw_logmanager_exit` three times; `datadir_cleanup`
and `write_footer` are not registered. -/
theorem C30_registers_first_function_thrice :
    (register_exit_functions (fun _ => 0) 4 0 []
      = (true, [ExitFn.skygw_logmanager_exit, ExitFn.skygw_logmanager_exit,
          ExitFn.skygw_logmanager_exit])) ∧
    (register_exit_functions (fun _ => 0) 4 0 []
      ≠ (true, [ExitFn.skygw_logmanager_exit, ExitFn.datadir_cleanup,
          ExitFn.write_footer])) ∧
    ((main (MainEnv.allSucceed ["maxscale"])).state.registered
      = [ExitFn.skygw_logmanager_exit, ExitFn.skygw_logmanager_exit,
          ExitFn.skygw_logmanager_exit, ExitFn.libmysqld_done]) ∧
    (ExitFn.datadir_cleanup ∉ (main (MainEnv.allSucceed ["maxscale"])).state.registered) ∧
    (ExitFn.write_footer ∉ (main (MainEnv.allSucceed ["maxscale"])).state.registered) := by
  refine ⟨by decide, by decide, by decide, by decide, by decide⟩

/-! ## Claims on the `Reply` mutators and the default `Reply` -/

/-- C32: `set_reply_state` is unconstrained. For every reply and every state `t` the call
returns and `state()` is `t` afterwards, whatever the state was before (so for all 36 pairs
of states, leaving `DONE` and moving back from `RSET_ROWS` to `RSET_COLDEF` included); after
any sequence of `set_reply_state` calls the state is the argument of the last one. -/
theorem C32_set_reply_state_unconstrained :
    (∀ (r : Reply) (t : ReplyState),
      r.call (ReplyCall.set_reply_state t) = some (r.set_reply_state t) ∧
      (r.set_reply_state t).state = t) ∧
    (∀ (r : Reply) (s t : ReplyState),
      ((r.set_reply_state s).set_reply_state t).state = t) ∧
    (∀ r : Reply, ((r.set_reply_state ReplyState.DONE).set_reply_state
        ReplyState.START).state = ReplyState.START ∧
      ((r.set_reply_state ReplyState.RSET_ROWS).set_reply_state
        ReplyState.RSET_COLDEF).state = ReplyState.RSET_COLDEF) ∧
    (∀ (r : Reply) (ts : List ReplyState) (t : ReplyState),
      ((ts ++ [t]).foldl Reply.set_reply_state r).state = t) := by
  refine ⟨fun _ _ => ⟨rfl, rfl⟩, fun _ _ _ => rfl, fun _ => ⟨rfl, rfl⟩, fun r ts t => ?_⟩
  rw [List.foldl_append]
  rfl

/-- C35: a default-constructed reply is idle and empty: `state()` is `DONE`,
`is_complete()` is true, `has_started()`, `is_resultset()` and `is_ok()` are false,
`command()`, `rows_read()`, `size()`, `generated_id()`, `param_count()` and
`num_warnings()` are 0, `field_counts()` is empty and `get_variable(k)` is the empty string
for every `k`. -/
theorem C35_default_reply :
    ({} : Reply).state = ReplyState.DONE ∧ ({} : Reply).is_complete = true ∧
    ({} : Reply).has_started = false ∧ ({} : Reply).is_resultset = false ∧
    ({} : Reply).is_ok = false ∧ ({} : Reply).command = 0 ∧ ({} : Reply).rows_read = 0 ∧
    ({} : Reply).size = 0 ∧ ({} : Reply).generated_id = 0 ∧ ({} : Reply).param_count = 0 ∧
    ({} : Reply).num_warnings = 0 ∧ ({} : Reply).field_counts = [] ∧
    (∀ k : String, ({} : Reply).get_variable k = "") := by
  refine ⟨rfl, by decide, by decide, by decide, by decide, rfl, rfl, rfl, rfl, rfl, rfl, rfl,
    fun _ => rfl⟩

/-- C33 as stated fails: `is_complete()` is a getter other than `state()`, and
`set_reply_state(START)` on a default-constructed reply changes it from true to false;
`is_resultset()` is a getter other than `field_counts()`, and `add_field_count(3)` on a
default-constructed reply changes it from false to true. -/
theorem C33_counterexample :
    (({} : Reply).is_complete = true ∧
      (({} : Reply).set_reply_state ReplyState.START).is_complete = false) ∧
    (({} : Reply).is_resultset = false ∧
      (({} : Reply).add_field_count 3).is_resultset = true) := by
  decide

/-- C33, amended: each mutator changes only its own attribute and the getters computed from
it. `add_rows` changes at most `rows_read()`, `add_bytes` at most `size()`, `set_variable`
at most `get_variable`; `add_field_count` changes `field_counts()` and with it
`is_resultset()` and `is_ok()`; `set_command`, `set_generated_id`, `set_param_count` and
`set_num_warnings` set the matching getter and nothing else; `set_reply_state` sets
`state()` and with it `is_complete()` and `has_started()`; `set_is_ok` sets the OK marker
read by `is_ok()`. Every other getter keeps its value, and no call other than
`set_reply_state` and `clear` changes `state()`. -/
theorem C33_mutator_frames :
    (∀ (r : Reply) (n : Nat),
      (r.add_rows n).view = { r.view with rows_read := (r.rows_read + n) % 2 ^ 64 }) ∧
    (∀ (r : Reply) (n : Nat), (r.add_bytes n).view = { r.view with size := n }) ∧
    (∀ (r : Reply) (n : Nat), (r.add_field_count n).view =
      { r.view with field_counts := r.field_counts ++ [n], is_resultset := true,
                    is_ok := false }) ∧
    (∀ (r : Reply) (k v : String), (r.set_variable k v).view =
      { r.view with get_variable := (r.set_variable k v).get_variable }) ∧
    (∀ (r : Reply) (c : Nat), (r.set_command c).view = { r.view with command := c }) ∧
    (∀ (r : Reply) (t : ReplyState), (r.set_reply_state t).view =
      { r.view with state := t, is_complete := t == ReplyState.DONE,
                    has_started := t != ReplyState.START && t != ReplyState.DONE }) ∧
    (∀ (r : Reply) (i : Nat),
      (r.set_generated_id i).view = { r.view with generated_id := i }) ∧
    (∀ (r : Reply) (c : Nat),
      (r.set_param_count c).view = { r.view with param_count := c }) ∧
    (∀ (r : Reply) (w : Nat),
      (r.set_num_warnings w).view = { r.view with num_warnings := w }) ∧
    (∀ (r : Reply) (b : Bool), (r.set_is_ok b).m_is_ok = b ∧ (r.set_is_ok b).view =
      { r.view with is_ok := b && !r.is_resultset && !r.error.toBool }) ∧
    (∀ (r r1 : Reply) (c : ReplyCall), c.isStateOrClear = false → r.call c = some r1 →
      r1.state = r.state) := by
  refine ⟨fun _ _ => rfl, fun _ _ => rfl, fun r n => ?_, fun r k v => ?_, fun _ _ => rfl,
    fun _ _ => rfl, fun _ _ => rfl, fun _ _ => rfl, fun _ _ => rfl, fun _ _ => ⟨rfl, rfl⟩,
    fun r r1 c hc h => ?_⟩
  · simp [Reply.view, Reply.add_field_count, Reply.is_resultset, Reply.is_ok, Reply.state,
      Reply.command, Reply.error, Reply.is_complete, Reply.has_started, Reply.rows_read,
      Reply.num_warnings, Reply.size, Reply.field_counts, Reply.generated_id,
      Reply.param_count]
    rfl
  · unfold Reply.set_variable
    cases r.m_variables.find? (fun kv => kv.1 == k) <;> rfl
  · cases c with
    | set_reply_state t => simp [ReplyCall.isStateOrClear] at hc
    | clear => simp [ReplyCall.isStateOrClear] at hc
    | set_error code st msg =>
      simp only [Reply.call, Reply.set_error, Option.map_eq_some'] at h
      obtain ⟨e, _, he⟩ := h
      subst he
      rfl
    | set_variable k v =>
      simp only [Reply.call, Option.some.injEq] at h
      subst h
      unfold Reply.set_variable
      cases r.m_variables.find? (fun kv => kv.1 == k) <;> rfl
    | _ =>
      simp only [Reply.call, Option.some.injEq] at h
      subst h
      rfl

/-- Witness for C33: on a reply in state `RSET_ROWS`, `add_rows(5)` returns and leaves the
state at `RSET_ROWS`. -/
theorem C33_mutator_frames_witness :
    (ReplyCall.add_rows 5).isStateOrClear = false ∧
    (({ m_reply_state := ReplyState.RSET_ROWS } : Reply).call (ReplyCall.add_rows 5)
      = some { m_reply_state := ReplyState.RSET_ROWS, m_row_count := 5 }) ∧
    ({ m_reply_state := ReplyState.RSET_ROWS, m_row_count := 5 } : Reply).state
      = ({ m_reply_state := ReplyState.RSET_ROWS } : Reply).state :=
  ⟨rfl, by decide,
    C33_mutator_frames.2.2.2.2.2.2.2.2.2.2 { m_reply_state := ReplyState.RSET_ROWS }
      { m_reply_state := ReplyState.RSET_ROWS, m_row_count := 5 } (ReplyCall.add_rows 5)
      rfl (by decide)⟩

/-! ## Claims on the chain of availability predicates -/

/-- Masking with three flags and comparing with the first: the first bit is set and the
other two are clear. -/
theorem land_flags3_one (s a b c : Nat) (hab : a ≠ b) (hac : a ≠ c) :
    s &&& (1 <<< a ||| 1 <<< b ||| 1 <<< c) = 1 <<< a ↔
      (s.testBit a = true ∧ s.testBit b = false ∧ s.testBit c = false) := by
  rw [eq_iff_testBit]
  simp only [Nat.testBit_and, Nat.testBit_or, testBit_flag]
  constructor
  · intro h
    have ha := h a
    have hb := h b
    have hc := h c
    simp only [decide_True, Bool.true_or, Bool.or_true, Bool.and_true] at ha hb hc
    simp only [hab, decide_False] at hb
    simp only [hac, decide_False] at hc
    exact ⟨ha, hb, hc⟩
  · rintro ⟨ha, hb, hc⟩ i
    by_cases hia : a = i
    · subst hia
      simp [ha]
    · by_cases hib : b = i
      · subst hib
        simp [hb, hia]
      · by_cases hic : c = i
        · subst hic
          simp [hc, hia]
        · simp [hia, hib, hic]

/-- C34: the availability predicates form a chain. For every status word,
`status_is_usable` is `status_is_running` and not `status_is_in_maint`, and
`status_is_connectable` is `status_is_usable` and not `status_is_draining`; so connectable
implies usable, usable implies running, and each of `status_is_master`, `status_is_slave`,
`status_is_relay` and `status_is_joined` implies usable. -/
theorem C34_availability_chain :
    (∀ s : Nat, status_is_usable s = (status_is_running s && !status_is_in_maint s)) ∧
    (∀ s : Nat, status_is_connectable s = (status_is_usable s && !status_is_draining s)) ∧
    (∀ s : Nat, status_is_connectable s = true → status_is_usable s = true) ∧
    (∀ s : Nat, status_is_usable s = true → status_is_running s = true) ∧
    (∀ s : Nat, (status_is_master s = true ∨ status_is_slave s = true ∨
      status_is_relay s = true ∨ status_is_joined s = true) → status_is_usable s = true) := by
  have hrun : ∀ s : Nat, status_is_running s = s.testBit 0 := fun s => by
    rw [status_is_running, SERVER_RUNNING, land_one_shiftLeft_ne_zero]
  have hmaint : ∀ s : Nat, status_is_in_maint s = s.testBit 1 := fun s => by
    rw [status_is_in_maint, SERVER_MAINT, land_one_shiftLeft_ne_zero]
  have hdrain : ∀ s : Nat, status_is_draining s = s.testBit 5 := fun s => by
    rw [status_is_draining, SERVER_DRAINING, land_one_shiftLeft_ne_zero]
  have husable : ∀ s : Nat, status_is_usable s = true ↔
      (s.testBit 0 = true ∧ s.testBit 1 = false) := by
    intro s
    unfold status_is_usable SERVER_RUNNING SERVER_MAINT
    rw [beq_iff_eq]
    exact land_flags2_one s 0 1 (by decide)
  have hconn : ∀ s : Nat, status_is_connectable s = true ↔
      (s.testBit 0 = true ∧ s.testBit 1 = false ∧ s.testBit 5 = false) := by
    intro s
    unfold status_is_connectable SERVER_RUNNING SERVER_MAINT SERVER_DRAINING
    rw [beq_iff_eq]
    exact land_flags3_one s 0 1 5 (by decide) (by decide)
  have hrole : ∀ s k : Nat, k ≠ 1 →
      ((s &&& (1 <<< 0 ||| 1 <<< k ||| 1 <<< 1)) == (1 <<< 0 ||| 1 <<< k)) = true →
      status_is_usable s = true := by
    intro s k hk h
    rw [beq_iff_eq, land_flags3 s 0 k 1 (by decide) hk] at h
    exact (husable s).mpr ⟨h.1, h.2.2⟩
  have hchain1 : ∀ s : Nat,
      status_is_usable s = (status_is_running s && !status_is_in_maint s) := by
    intro s
    rw [Bool.eq_iff_iff, husable, hrun, hmaint]
    cases s.testBit 0 <;> cases s.testBit 1 <;> decide
  have hchain2 : ∀ s : Nat,
      status_is_connectable s = (status_is_usable s && !status_is_draining s) := by
    intro s
    rw [Bool.eq_iff_iff, hconn, Bool.and_eq_true, husable, hdrain]
    cases s.testBit 0 <;> cases s.testBit 1 <;> cases s.testBit 5 <;> decide
  refine ⟨hchain1, hchain2, fun s h => ?_, fun s h => ?_, fun s h => ?_⟩
  · rw [hchain2, Bool.and_eq_true] at h
    exact h.1
  · rw [hchain1, Bool.and_eq_true] at h
    exact h.1
  · rcases h with h | h | h | h
    · exact hrole s 3 (by decide) h
    · exact hrole s 4 (by decide) h
    · exact hrole s 11 (by decide) h
    · exact hrole s 20 (by decide) h

/-- Witness for C34: status 1 (RUNNING only) is connectable, hence usable and running;
status 41 (RUNNING, MASTER, DRAINING) is a master, hence usable, and not connectable. -/
theorem C34_availability_chain_witness :
    status_is_connectable 1 = true ∧ status_is_usable 1 = true ∧
    status_is_running 1 = true ∧ status_is_master 41 = true ∧
    status_is_usable 41 = true ∧ status_is_connectable 41 = false :=
  ⟨by decide, C34_availability_chain.2.2.1 1 (by decide),
    C34_availability_chain.2.2.2.1 1 (by decide), by decide,
    C34_availability_chain.2.2.2.2 41 (Or.inl (by decide)), by decide⟩

/-! ## Claims on the configuration file resolution of `main` -/

end MaxScale
